import Mathlib

/-!
# Verification of the `my-dot-codex` review-pull-request scripts

A shallow embedding of the three Python command-line utilities
(`fetch_issue.py`, `fetch_pr_diff.py`, `fetch_pr_comments.py`) of the
repository, together with theorems settling the specification claims.

Modelling conventions:
* JSON values are modelled by the inductive type `Json` (numbers as
  integers; floating point is out of scope since no script computes with
  numbers).
* Python exceptions are modelled by `Except String`; the carried string is
  the exception message (`str(e)`).
* Python truthiness of a JSON-decoded value is `pyTruthyJ`.
* `dict.get(k)` (missing key gives `None`) is `pyGetAttrE` (error on a
  non-dict receiver, mirroring `AttributeError`); `d[k]` subscription is
  `pySubscrE` (error on missing key / non-dict, mirroring
  `KeyError`/`TypeError`); `x or y` is `pyOr`; `for`-iteration is `pyIterE`.
* The single I/O boundary (`subprocess.run`) is an oracle parameter
  `env : List String → Option String → ProcResult` (command line, optional
  stdin text, captured result); `json.loads` is an oracle parameter
  `loads : String → Except String Json` (stdlib, treated as a primitive as
  the spec directs).  `json.dumps(·, indent=2)` is modelled by the concrete
  serializer `jsonDump` (deterministic; whitespace placement is simplified
  relative to CPython, which no claim depends on).
-/

/-- JSON values as decoded by `json.loads`.  Numbers are modelled as
integers: every number the scripts touch is an id or count. -/
inductive Json where
  | null
  | bool (b : Bool)
  | num (n : Int)
  | str (s : String)
  | arr (elems : List Json)
  | obj (fields : List (String × Json))

namespace Json

/-- Is this value a JSON object (Python `dict`)?  Mirrors `isinstance(x, dict)`. -/
def isObj : Json → Bool
  | .obj _ => true
  | _ => false

/-- Is this value a JSON string? -/
def isStr : Json → Bool
  | .str _ => true
  | _ => false

end Json

/-- First binding of key `k` in an association list (Python dicts decoded
from JSON have unique keys, so first = only). -/
def jlookup (k : String) : List (String × Json) → Option Json
  | [] => none
  | (k', v) :: rest => if k' = k then some v else jlookup k rest

/-- `d.get(k)` on a value known to be a dict: the value, or `null`
(Python `None`) when the key is missing. -/
def jGetD (j : Json) (k : String) : Json :=
  match j with
  | .obj kvs => (jlookup k kvs).getD .null
  | _ => .null

/-- Python truthiness of a JSON-decoded value (`bool(x)`). -/
def pyTruthyJ : Json → Bool
  | .null => false
  | .bool b => b
  | .num n => n != 0
  | .str s => !s.isEmpty
  | .arr xs => !xs.isEmpty
  | .obj kvs => !kvs.isEmpty

/-- Python `x or y` on JSON-decoded values: `x` if truthy, else `y`. -/
def pyOr (a b : Json) : Json :=
  if pyTruthyJ a then a else b

/-- Python single-quoted `repr` of a string, as used by f-string `!r`
(escape sequences inside the string are not modelled; no claim depends
on them). -/
def pyRepr (s : String) : String :=
  String.mk ['\''] ++ s ++ String.mk ['\'']

/-- `x.get(k)`: attribute-style dictionary access.  On a non-dict receiver
Python raises `AttributeError`; on a dict a missing key yields `None`. -/
def pyGetAttrE (j : Json) (k : String) : Except String Json :=
  match j with
  | .obj _ => .ok (jGetD j k)
  | _ => .error ("AttributeError: object has no attribute " ++ pyRepr "get")

/-- `x[k]` subscription: `KeyError` on a missing key, `TypeError` on a
non-dict receiver. -/
def pySubscrE (j : Json) (k : String) : Except String Json :=
  match j with
  | .obj kvs =>
    match jlookup k kvs with
    | some v => .ok v
    | none => .error ("KeyError: " ++ pyRepr k)
  | _ => .error "TypeError: object is not subscriptable"

/-- `for`-iteration over a JSON-decoded value: lists yield elements,
strings yield their characters, dicts yield their keys; everything else
(including `None`) raises `TypeError`. -/
def pyIterE : Json → Except String (List Json)
  | .arr xs => .ok xs
  | .str s => .ok (s.data.map (fun c => Json.str (String.mk [c])))
  | .obj kvs => .ok (kvs.map (fun kv => Json.str kv.1))
  | _ => .error "TypeError: object is not iterable"

/-- Is the character list `pat` a prefix of `l`? -/
def listPrefixOf : List Char → List Char → Bool
  | [], _ => true
  | _ :: _, [] => false
  | p :: ps, c :: cs => (p = c) && listPrefixOf ps cs

/-- Is the character list `pat` a contiguous infix of `l`? -/
def listInfixOf (pat : List Char) : List Char → Bool
  | [] => listPrefixOf pat []
  | l@(_ :: rest) => listPrefixOf pat l || listInfixOf pat rest

mutual

/-- Structural equality of JSON values, as Python `==` compares decoded
JSON values (dict comparison is modelled order-sensitively; decoded dicts
are compared only through membership tests on lists, which no claim
exercises on reordered dicts). -/
def jsonBeq : Json → Json → Bool
  | .null, .null => true
  | .bool a, .bool b => a == b
  | .num a, .num b => a == b
  | .str a, .str b => a == b
  | .arr a, .arr b => jsonListBeq a b
  | .obj a, .obj b => jsonKVBeq a b
  | _, _ => false

/-- Elementwise equality of JSON lists. -/
def jsonListBeq : List Json → List Json → Bool
  | [], [] => true
  | a :: as', b :: bs' => jsonBeq a b && jsonListBeq as' bs'
  | _, _ => false

/-- Pairwise equality of JSON object fields. -/
def jsonKVBeq : List (String × Json) → List (String × Json) → Bool
  | [], [] => true
  | (ka, va) :: as', (kb, vb) :: bs' => (ka == kb) && jsonBeq va vb && jsonKVBeq as' bs'
  | _, _ => false

end

/-- `k in x`: dict key test, string substring test, list membership;
`TypeError` otherwise. -/
def pyInE (j : Json) (k : String) : Except String Bool :=
  match j with
  | .obj kvs => .ok (kvs.any (fun kv => kv.1 == k))
  | .str s => .ok (listInfixOf k.data s.data)
  | .arr xs => .ok (xs.any (jsonBeq (.str k)))
  | _ => .error "TypeError: argument is not iterable"

/-- Escape one character for a JSON string literal (quote, backslash and
newline; the scripts never emit other control characters). -/
def jstrEsc (c : Char) : String :=
  if c = '"' then "\\\"" else if c = '\\' then "\\\\" else if c = '\n' then "\\n"
  else String.mk [c]

/-- A JSON string literal. -/
def jstrLit (s : String) : String :=
  "\"" ++ String.join (s.data.map jstrEsc) ++ "\""

mutual

/-- Serialize a JSON value.  Models `json.dumps(·, indent=2)` as the
deterministic serializer the scripts print with; whitespace placement is
simplified (no claim inspects the whitespace of the output). -/
def jsonDump : Json → String
  | .null => "null"
  | .bool true => "true"
  | .bool false => "false"
  | .num n => toString n
  | .str s => jstrLit s
  | .arr xs => "[" ++ jsonDumpList xs ++ "]"
  | .obj kvs => "\x7b" ++ jsonDumpKVs kvs ++ "\x7d"

/-- Serialize JSON array elements, comma-separated. -/
def jsonDumpList : List Json → String
  | [] => ""
  | [x] => jsonDump x
  | x :: xs => jsonDump x ++ ", " ++ jsonDumpList xs

/-- Serialize JSON object fields, comma-separated. -/
def jsonDumpKVs : List (String × Json) → String
  | [] => ""
  | [(k, v)] => jstrLit k ++ ": " ++ jsonDump v
  | (k, v) :: rest => jstrLit k ++ ": " ++ jsonDump v ++ ", " ++ jsonDumpKVs rest

end

/-- Python `str(x)` of a JSON-decoded value, as interpolated into f-strings
(container reprs are approximated by the JSON serialization; the scripts
only ever interpolate strings and integers). -/
def pyStrJ : Json → String
  | .null => "None"
  | .bool true => "True"
  | .bool false => "False"
  | .num n => toString n
  | .str s => s
  | j => jsonDump j

/-- Characters removed by Python `str.strip()` with no argument. -/
def pyIsSpace (c : Char) : Bool :=
  c = ' ' || c = '\t' || c = '\n' || c = '\r' || c = '\x0b' || c = '\x0c'

/-- Python `s.strip()`: remove leading and trailing whitespace. -/
def pyStrip (s : String) : String :=
  String.mk (((s.data.dropWhile pyIsSpace).reverse.dropWhile pyIsSpace).reverse)

/-- Python `s.lstrip("#")`: remove every leading `#`. -/
def pyLstripHash (s : String) : String :=
  String.mk (s.data.dropWhile (fun c => c = '#'))

/-- Does `s` match the regex `\d+` in full (`re.fullmatch(r"\d+", s)`)? -/
def isDigits (s : String) : Bool :=
  !s.data.isEmpty && s.data.all Char.isDigit

/-- Does `s` match the regex `#\d+` in full? -/
def isHashDigits (s : String) : Bool :=
  match s.data with
  | c :: rest => (c == '#') && (!rest.isEmpty && rest.all Char.isDigit)
  | [] => false

/-- Decimal value of a digit string (`int(s)` for a string matching `\d+`). -/
def strToNat (s : String) : Nat :=
  s.data.foldl (fun a c => a * 10 + (c.toNat - 48)) 0

/-- Does the character list start with `/pull/` followed by a digit? -/
def pullAt : List Char → Bool
  | c0 :: c1 :: c2 :: c3 :: c4 :: c5 :: d :: _ =>
    (c0 == '/') && (c1 == 'p') && (c2 == 'u') && (c3 == 'l') && (c4 == 'l') && (c5 == '/')
      && d.isDigit
  | _ => false

/-- `re.search(r"/pull/(\d+)", s)` succeeds: some position of the character
list starts with `/pull/` followed by a digit. -/
def hasPullL : List Char → Bool
  | [] => false
  | l@(_ :: rest) => pullAt l || hasPullL rest

/-- `re.search(r"/pull/(\d+)", s)` on a string. -/
def hasPullNum (s : String) : Bool :=
  hasPullL s.data

/-- Python `int(x)` on a JSON-decoded value: integers pass through, booleans
become 0/1, strings are parsed as optionally signed decimal integers
(after stripping whitespace); everything else raises. -/
def pyIntE : Json → Except String Int
  | .num n => .ok n
  | .bool true => .ok 1
  | .bool false => .ok 0
  | .str s =>
    let t := pyStrip s
    match t.data with
    | '-' :: rest =>
      if !rest.isEmpty && rest.all Char.isDigit then .ok (-(Int.ofNat (strToNat (String.mk rest))))
      else .error ("ValueError: invalid literal for int: " ++ pyRepr s)
    | '+' :: rest =>
      if !rest.isEmpty && rest.all Char.isDigit then .ok (Int.ofNat (strToNat (String.mk rest)))
      else .error ("ValueError: invalid literal for int: " ++ pyRepr s)
    | _ =>
      if isDigits t then .ok (Int.ofNat (strToNat t))
      else .error ("ValueError: invalid literal for int: " ++ pyRepr s)
  | _ => .error "TypeError: int argument must be a string or a number"

/-- The captured result of one external process invocation
(`subprocess.run(cmd, input=stdin, capture_output=True, text=True)`). -/
structure ProcResult where
  returncode : Int
  stdout : String
  stderr : String

/-- The external process environment: command line and optional stdin text
to captured result.  This is the single I/O boundary of all three scripts. -/
def Env : Type := List String → Option String → ProcResult

/-- The `json.loads` primitive: raw text to JSON value or a
`json.JSONDecodeError` message. -/
def Loads : Type := String → Except String Json

/-- `' '.join(cmd)`. -/
def joinSpaces : List String → String
  | [] => ""
  | [c] => c
  | c :: rest => c ++ " " ++ joinSpaces rest

/-- `_run(cmd, stdin)`: invoke the external process; on a non-zero exit
status raise `RuntimeError` with the command line and stripped stderr
(identical in all three scripts; the two scripts without a stdin parameter
call `subprocess.run` with its default `input=None`). -/
def _run (env : Env) (cmd : List String) (stdin : Option String) : Except String String :=
  let p := env cmd stdin
  if p.returncode ≠ 0 then
    .error ("Command failed: " ++ joinSpaces cmd ++ "\n" ++ pyStrip p.stderr)
  else
    .ok p.stdout

/-- `_run_json` of `fetch_issue.py`: run, then parse stdout as JSON. -/
def run_json_issue (loads : Loads) (env : Env) (cmd : List String) : Except String Json := do
  let out ← _run env cmd none
  match loads out with
  | .ok j => pure j
  | .error e => .error ("Failed to parse JSON output: " ++ e ++ "\nRaw:\n" ++ out)

/-- `_run_json` of `fetch_pr_diff.py` and `fetch_pr_comments.py`: run
(optionally with stdin), then parse stdout as JSON. -/
def run_json_pr (loads : Loads) (env : Env) (cmd : List String) (stdin : Option String) :
    Except String Json := do
  let out ← _run env cmd stdin
  match loads out with
  | .ok j => pure j
  | .error e => .error ("Failed to parse JSON from command output: " ++ e ++ "\nRaw:\n" ++ out)

/-- The fixed message of the `Unauthenticated` error. -/
def authErrMsg : String := "GitHub CLI is not authenticated. Run: gh auth login"

/-- `_ensure_gh_authenticated()`: probe `gh auth status`; on any failure
raise the fixed authentication message, dropping the underlying error
(`raise ... from None`).  The definition is textually identical in all
three scripts. -/
def _ensure_gh_authenticated (env : Env) : Except String Unit :=
  match _run env ["gh", "auth", "status"] none with
  | .ok _ => .ok ()
  | .error _ => .error authErrMsg

/-- `_parse_issue_number` of `fetch_issue.py`: strip whitespace, strip all
leading `#`, require a digit string, require the value to be at least 1. -/
def _parse_issue_number (arg : String) : Except String Nat :=
  let s := pyLstripHash (pyStrip arg)
  if isDigits s then
    let n := strToNat s
    if n < 1 then .error "Issue number must be >= 1."
    else .ok n
  else
    .error ("Invalid issue number: " ++ pyRepr arg ++ ". Expected something like 123 or #123.")

/-- `_parse_pr_ref` of `fetch_pr_diff.py` and `fetch_pr_comments.py`
(textually identical): `#123` becomes `123`, `123` stays, any string
containing `/pull/<digit>` is passed through stripped; anything else is an
invalid reference. -/
def _parse_pr_ref (arg : String) : Except String String :=
  let s := pyStrip arg
  if isHashDigits s then .ok (pyLstripHash s)
  else if isDigits s then .ok s
  else if hasPullNum s then .ok s
  else
    .error ("Invalid PR reference: " ++ pyRepr arg ++
      ". Expected a number (e.g. 3698), #3698, or a PR URL.")

/-- `normalizeComment`: the comment record built inside the `fetch_issue`
loop body, for an element already known to be a dict
(`{"id": ..., "author": (c.get("author") or {}).get("login"), ...}`). -/
def normalizeComment (c : Json) : Except String Json := do
  let author ← pyGetAttrE (pyOr (jGetD c "author") (Json.obj [])) "login"
  pure (Json.obj [("id", jGetD c "id"), ("author", author),
    ("createdAt", jGetD c "createdAt"), ("updatedAt", jGetD c "updatedAt"),
    ("body", pyOr (jGetD c "body") (Json.str ""))])

/-- The normalization part of `fetch_issue` (`fetch_issue.py` lines 84-112):
flatten the raw `gh issue view` payload into the `issue` record and the
list of comment records, in source field order. -/
def fetch_issue_normalize (payload : Json) : Except String Json := do
  let number ← pyGetAttrE payload "number"
  let title ← pyGetAttrE payload "title"
  let url ← pyGetAttrE payload "url"
  let state ← pyGetAttrE payload "state"
  let body0 ← pyGetAttrE payload "body"
  let author0 ← pyGetAttrE payload "author"
  let author ← pyGetAttrE (pyOr author0 (Json.obj [])) "login"
  let createdAt ← pyGetAttrE payload "createdAt"
  let updatedAt ← pyGetAttrE payload "updatedAt"
  let assignees0 ← pyGetAttrE payload "assignees"
  let assigneesL ← pyIterE (pyOr assignees0 (Json.arr []))
  let assignees := (assigneesL.filter Json.isObj).map (fun a => jGetD a "login")
  let labels0 ← pyGetAttrE payload "labels"
  let labelsL ← pyIterE (pyOr labels0 (Json.arr []))
  let labels := (labelsL.filter Json.isObj).map (fun l => jGetD l "name")
  let issue := Json.obj [("number", number), ("title", title), ("url", url), ("state", state),
    ("body", pyOr body0 (Json.str "")), ("author", author), ("createdAt", createdAt),
    ("updatedAt", updatedAt), ("assignees", Json.arr assignees), ("labels", Json.arr labels)]
  let comments0 ← pyGetAttrE payload "comments"
  let commentsL ← pyIterE (pyOr comments0 (Json.arr []))
  let commentsOut ← (commentsL.filter Json.isObj).mapM normalizeComment
  pure (Json.obj [("issue", issue), ("comments", Json.arr commentsOut)])

/-- The `--json` field list of `fetch_issue` (`",".join([...])`). -/
def issueFieldsArg : String :=
  "number,title,url,state,body,author,createdAt,updatedAt,assignees,labels,comments"

/-- `fetch_issue(issue_number)`: one `gh issue view` call, then normalization. -/
def fetch_issue (loads : Loads) (env : Env) (issue_number : Nat) : Except String Json := do
  let payload ← run_json_issue loads env
    ["gh", "issue", "view", toString issue_number, "--json", issueFieldsArg]
  fetch_issue_normalize payload

/-- The observable outcome of one `main()` invocation: a process exit with
captured stdout/stderr, an exception that escaped `main` (the interpreter
prints a traceback containing the message and exits 1), or
non-termination. -/
inductive ExitOutcome where
  | exited (code : Nat) (stdout stderr : String)
  | uncaught (msg : String)
  | nonterm

/-- Usage line of `fetch_issue.py`. -/
def issueUsage : String := "Usage: python3 scripts/fetch_issue.py <issue_number_or_#issue_number>"

/-- The `try`-block body of `fetch_issue.main`: parse, authenticate, fetch. -/
def issuePipeline (loads : Loads) (env : Env) (arg : String) : Except String Json := do
  let n ← _parse_issue_number arg
  _ensure_gh_authenticated env
  fetch_issue loads env n

/-- `main()` of `fetch_issue.py`.  The reference parse happens inside the
`try` block, so every error exits with status 1 and the message on stderr. -/
def main_fetch_issue (loads : Loads) (env : Env) (argv : List String) : ExitOutcome :=
  if argv.length ≠ 2 then .exited 2 "" (issueUsage ++ "\n")
  else
    match issuePipeline loads env (argv.getD 1 "") with
    | .ok r => .exited 0 (jsonDump r ++ "\n") ""
    | .error e => .exited 1 "" (e ++ "\n")

/-- The `--json` field list of `_get_pr_view_json` in `fetch_pr_diff.py`. -/
def prViewFieldsArg : String :=
  "number,title,url,headRefName,baseRefName,state,author,createdAt,updatedAt,additions,deletions,changedFiles,files"

/-- `if pr_ref: cmd.append(pr_ref)` — the optional positional reference,
appended only when truthy (a nonempty string). -/
def optRefArg (prRef : Option String) : List String :=
  match prRef with
  | some s => if !s.isEmpty then [s] else []
  | none => []

/-- `_get_pr_view_json` of `fetch_pr_diff.py`. -/
def _get_pr_view_json (loads : Loads) (env : Env) (prRef : Option String) : Except String Json :=
  run_json_pr loads env (["gh", "pr", "view"] ++ optRefArg prRef ++ ["--json", prViewFieldsArg]) none

/-- `_get_pr_diff` of `fetch_pr_diff.py`. -/
def _get_pr_diff (env : Env) (prRef : Option String) : Except String String :=
  _run env (["gh", "pr", "diff"] ++ optRefArg prRef) none

/-- The `try`-block body of `fetch_pr_diff.main`: authenticate, metadata
call, diff call, compose `{"pr": ..., "diff": ...}`. -/
def diffPipeline (loads : Loads) (env : Env) (prRef : Option String) : Except String Json := do
  _ensure_gh_authenticated env
  let prJson ← _get_pr_view_json loads env prRef
  let diff ← _get_pr_diff env prRef
  pure (Json.obj [("pr", prJson), ("diff", Json.str diff)])

/-- Usage line of `fetch_pr_diff.py`. -/
def diffUsage : String := "Usage: python3 scripts/fetch_pr_diff.py [pr_number|#pr_number|pr_url]"

/-- `main()` of `fetch_pr_diff.py`.  The reference parse happens before the
`try` block, so an invalid reference escapes `main` uncaught. -/
def main_fetch_pr_diff (loads : Loads) (env : Env) (argv : List String) : ExitOutcome :=
  if 2 < argv.length then .exited 2 "" (diffUsage ++ "\n")
  else
    match (if argv.length = 2 then (_parse_pr_ref (argv.getD 1 "")).map some
           else .ok none : Except String (Option String)) with
    | .error e => .uncaught e
    | .ok prRef =>
      match diffPipeline loads env prRef with
      | .ok r => .exited 0 (jsonDump r ++ "\n") ""
      | .error e => .exited 1 "" (e ++ "\n")

/-- The GraphQL query document of `fetch_pr_comments.py` (verbatim; braces
written with character escapes). -/
def QUERY : String :=
"query(
  $owner: String!,
  $repo: String!,
  $number: Int!,
  $commentsCursor: String,
  $reviewsCursor: String,
  $threadsCursor: String
) \x7b
  repository(owner: $owner, name: $repo) \x7b
    pullRequest(number: $number) \x7b
      number
      url
      title
      state

      comments(first: 100, after: $commentsCursor) \x7b
        pageInfo \x7b hasNextPage endCursor \x7d
        nodes \x7b
          id
          body
          createdAt
          updatedAt
          author \x7b login \x7d
        \x7d
      \x7d

      reviews(first: 100, after: $reviewsCursor) \x7b
        pageInfo \x7b hasNextPage endCursor \x7d
        nodes \x7b
          id
          state
          body
          submittedAt
          author \x7b login \x7d
        \x7d
      \x7d

      reviewThreads(first: 100, after: $threadsCursor) \x7b
        pageInfo \x7b hasNextPage endCursor \x7d
        nodes \x7b
          id
          isResolved
          isOutdated
          path
          line
          diffSide
          startLine
          startDiffSide
          originalLine
          originalStartLine
          comments(first: 100) \x7b
            nodes \x7b
              id
              body
              createdAt
              updatedAt
              author \x7b login \x7d
            \x7d
          \x7d
        \x7d
      \x7d
    \x7d
  \x7d
\x7d
"

/-- The `--json` field list of `_get_pr_owner_repo_number`. -/
def prOwnerRepoFields : String := "number,headRepositoryOwner,headRepository"

/-- `_get_pr_owner_repo_number` of `fetch_pr_comments.py`: resolve the head
repository owner/name and the PR number (fork-safe). -/
def _get_pr_owner_repo_number (loads : Loads) (env : Env) (prRef : Option String) :
    Except String (Json × Json × Int) := do
  let pr ← run_json_pr loads env
    (["gh", "pr", "view"] ++ optRefArg prRef ++ ["--json", prOwnerRepoFields]) none
  let ownerObj ← pySubscrE pr "headRepositoryOwner"
  let owner ← pySubscrE ownerObj "login"
  let repoObj ← pySubscrE pr "headRepository"
  let repo ← pySubscrE repoObj "name"
  let numJ ← pySubscrE pr "number"
  let number ← pyIntE numJ
  pure (owner, repo, number)

/-- `_gh_api_graphql` of `fetch_pr_comments.py`: build the `gh api graphql`
command line, including each cursor flag only when the cursor is truthy,
and run it with the query document on stdin. -/
def _gh_api_graphql (loads : Loads) (env : Env) (owner repo : Json) (number : Int)
    (comments_cursor reviews_cursor threads_cursor : Json) : Except String Json :=
  let cmd := ["gh", "api", "graphql", "-F", "query=@-",
      "-F", "owner=" ++ pyStrJ owner, "-F", "repo=" ++ pyStrJ repo,
      "-F", "number=" ++ toString number]
    ++ (if pyTruthyJ comments_cursor then ["-F", "commentsCursor=" ++ pyStrJ comments_cursor] else [])
    ++ (if pyTruthyJ reviews_cursor then ["-F", "reviewsCursor=" ++ pyStrJ reviews_cursor] else [])
    ++ (if pyTruthyJ threads_cursor then ["-F", "threadsCursor=" ++ pyStrJ threads_cursor] else [])
  run_json_pr loads env cmd (some QUERY)

/-- One recorded round trip of the `fetch_all` loop: the three cursor
values at call time, the parsed response payload, and the three cursor
values after the update on lines 230-232. -/
structure RoundLog where
  reqC : Json
  reqR : Json
  reqT : Json
  payload : Json
  curC : Json
  curR : Json
  curT : Json

/-- The mutable state of the `fetch_all` loop: the three accumulated node
lists, the three cursors, the captured PR metadata, plus the round-trip
log (ghost state recording the interaction, used only by theorems). -/
structure LoopSt where
  comments : List Json
  reviews : List Json
  threads : List Json
  curC : Json
  curR : Json
  curT : Json
  prMeta : Option Json
  log : List RoundLog

/-- The loop state on entry to `fetch_all`: empty accumulators, all three
cursors `None`, no metadata. -/
def initSt : LoopSt := ⟨[], [], [], .null, .null, .null, none, []⟩

/-- Lines 230-232: `c["pageInfo"]["endCursor"] if c["pageInfo"]["hasNextPage"]
else None` for one collection (the conditional re-reads `pageInfo`, and
reads `endCursor` only when `hasNextPage` is truthy, exactly as Python
evaluates it). -/
def nextCursorE (coll : Json) : Except String Json := do
  let pi1 ← pySubscrE coll "pageInfo"
  let hn ← pySubscrE pi1 "hasNextPage"
  if pyTruthyJ hn then do
    let pi2 ← pySubscrE coll "pageInfo"
    pySubscrE pi2 "endCursor"
  else pure Json.null

/-- Lines 208-209: `if "errors" in payload and payload["errors"]: raise`. -/
def checkErrors (payload : Json) : Except String Unit := do
  let hasErrs ← pyInE payload "errors"
  if hasErrs then do
    let errs ← pySubscrE payload "errors"
    if pyTruthyJ errs then
      Except.error ("GitHub GraphQL errors:\n" ++ jsonDump errs)
    else pure ()
  else pure ()

/-- Line 211: descend from a response payload to the pull-request object
(`payload["data"]["repository"]["pullRequest"]`). -/
def prOfE (payload : Json) : Except String Json := do
  let dataJ ← pySubscrE payload "data"
  let repoJ ← pySubscrE dataJ "repository"
  pySubscrE repoJ "pullRequest"

/-- Lines 213-220: the pull-request metadata dict captured on the first
round trip, read from the pull-request object in source field order. -/
def metaOfPrE (pr ow rp : Json) : Except String Json := do
  let num ← pySubscrE pr "number"
  let url ← pySubscrE pr "url"
  let title ← pySubscrE pr "title"
  let state ← pySubscrE pr "state"
  pure (Json.obj [("number", num), ("url", url), ("title", title), ("state", state),
    ("owner", ow), ("repo", rp)])

/-- The metadata captured on the first round trip as a function of the
whole response payload. -/
def metaOfE (payload ow rp : Json) : Except String Json := do
  let pr ← prOfE payload
  metaOfPrE pr ow rp

/-- Lines 226-228: `coll.get("nodes") or []`, iterated for `list.extend`. -/
def collNodes (coll : Json) : Except String (List Json) := do
  let n ← pyGetAttrE coll "nodes"
  pyIterE (pyOr n (Json.arr []))

/-- Everything one iteration of the `fetch_all` loop computes from the
response payload, before the state is updated. -/
structure RoundData where
  payload : Json
  metaFields : Option Json
  nodesC : List Json
  nodesR : List Json
  nodesT : List Json
  newC : Json
  newR : Json
  newT : Json

/-- The body of one `fetch_all` round trip (lines 199-232), with reads in
source order: call the query, check the `errors` array, descend to the
pull request object, capture metadata when it is still unset, read the
three node lists, then compute the three new cursors. -/
def roundCompute (api : Json → Json → Json → Except String Json) (owner repo : Json)
    (needMeta : Bool) (cc rc tc : Json) : Except String RoundData := do
  let payload ← api cc rc tc
  checkErrors payload
  let pr ← prOfE payload
  let meta ← if needMeta then some <$> metaOfPrE pr owner repo else pure none
  let c ← pySubscrE pr "comments"
  let r ← pySubscrE pr "reviews"
  let t ← pySubscrE pr "reviewThreads"
  let cns ← collNodes c
  let rns ← collNodes r
  let tns ← collNodes t
  let newC ← nextCursorE c
  let newR ← nextCursorE r
  let newT ← nextCursorE t
  pure ⟨payload, meta, cns, rns, tns, newC, newR, newT⟩

/-- The log entry for one round trip. -/
def mkRoundLog (st : LoopSt) (d : RoundData) : RoundLog :=
  ⟨st.curC, st.curR, st.curT, d.payload, d.newC, d.newR, d.newT⟩

/-- One iteration of the `fetch_all` loop as a state transformer: run the
round body, then apply all state writes (extend accumulators, replace
cursors, set metadata if still unset, append the log entry). -/
def fetchStep (api : Json → Json → Json → Except String Json) (owner repo : Json)
    (st : LoopSt) : Except String LoopSt :=
  (roundCompute api owner repo st.prMeta.isNone st.curC st.curR st.curT).map (fun d =>
    { comments := st.comments ++ d.nodesC
      reviews := st.reviews ++ d.nodesR
      threads := st.threads ++ d.nodesT
      curC := d.newC, curR := d.newR, curT := d.newT
      prMeta := st.prMeta.orElse (fun _ => d.metaFields)
      log := st.log ++ [mkRoundLog st d] })

/-- Result of running the `while True` loop of `fetch_all` under a fuel
bound: normal exit, a raised error, or fuel exhausted (the Python loop has
no intrinsic termination guarantee). -/
inductive FetchRes where
  | ok (final : LoopSt)
  | err (msg : String)
  | out

/-- Line 234: the loop continues iff `comments_cursor or reviews_cursor or
threads_cursor` is truthy. -/
def loopContinue (st : LoopSt) : Bool :=
  pyTruthyJ st.curC || pyTruthyJ st.curR || pyTruthyJ st.curT

/-- The `while True` loop of `fetch_all` (lines 198-235), parameterized by
the query callee `api` (instantiated with `_gh_api_graphql` by
`fetch_all`, or with a mocked responder by the theorems). -/
def fetchLoop (api : Json → Json → Json → Except String Json) (owner repo : Json) :
    Nat → LoopSt → FetchRes
  | 0, _ => .out
  | fuel + 1, st =>
    match fetchStep api owner repo st with
    | .error e => .err e
    | .ok st' => if loopContinue st' then fetchLoop api owner repo fuel st' else .ok st'

/-- Lines 237-243: `assert pr_meta is not None` and the composite result
object (an `AssertionError` is an ordinary exception caught by `main`). -/
def assembleResult (st : LoopSt) : Except String Json :=
  match st.prMeta with
  | some m => .ok (Json.obj [("pull_request", m),
      ("conversation_comments", Json.arr st.comments),
      ("reviews", Json.arr st.reviews),
      ("review_threads", Json.arr st.threads)])
  | none => .error "AssertionError"

/-- Result of a fallible, possibly diverging computation. -/
inductive RunRes where
  | ok (v : Json)
  | err (e : String)
  | nonterm

/-- `fetch_all(owner, repo, number)` of `fetch_pr_comments.py`: drive the
paginated query to exhaustion and compose the result object. -/
def fetch_all (loads : Loads) (env : Env) (owner repo : Json) (number : Int) (fuel : Nat) :
    RunRes :=
  match fetchLoop (_gh_api_graphql loads env owner repo number) owner repo fuel initSt with
  | .ok st =>
    match assembleResult st with
    | .ok v => .ok v
    | .error e => .err e
  | .err e => .err e
  | .out => .nonterm

/-- Usage line of `fetch_pr_comments.py`. -/
def prcUsage : String := "Usage: python3 scripts/fetch_pr_comments.py [pr_number|#pr_number|pr_url]"

/-- The `try`-block body of `fetch_pr_comments.main`: authenticate, resolve
the PR, fetch everything. -/
def prcPipeline (loads : Loads) (env : Env) (prRef : Option String) (fuel : Nat) : RunRes :=
  match (do _ensure_gh_authenticated env; _get_pr_owner_repo_number loads env prRef) with
  | .error e => .err e
  | .ok (owner, repo, number) => fetch_all loads env owner repo number fuel

/-- `main()` of `fetch_pr_comments.py`.  The reference parse happens before
the `try` block, so an invalid reference escapes `main` uncaught. -/
def main_fetch_pr_comments (loads : Loads) (env : Env) (argv : List String) (fuel : Nat) :
    ExitOutcome :=
  if 2 < argv.length then .exited 2 "" (prcUsage ++ "\n")
  else
    match (if argv.length = 2 then (_parse_pr_ref (argv.getD 1 "")).map some
           else .ok none : Except String (Option String)) with
    | .error e => .uncaught e
    | .ok prRef =>
      match prcPipeline loads env prRef fuel with
      | .ok r => .exited 0 (jsonDump r ++ "\n") ""
      | .err e => .exited 1 "" (e ++ "\n")
      | .nonterm => .nonterm

/-- Reduce a bind on a successful `Except`. -/
@[simp] theorem exceptBindOk (a : α) (f : α → Except ε β) :
    (Except.ok a >>= f : Except ε β) = f a := rfl

/-- Reduce a bind on a failed `Except`. -/
@[simp] theorem exceptBindError (e : ε) (f : α → Except ε β) :
    (Except.error e >>= f : Except ε β) = Except.error e := rfl

/-- Invert a successful bind. -/
theorem exceptBindOkIff {x : Except ε α} {f : α → Except ε β} {b : β} :
    (x >>= f) = .ok b ↔ ∃ a, x = .ok a ∧ f a = .ok b := by
  cases x <;> simp [Bind.bind, Except.bind]

/-- The mocked paged response for one collection: page `t` of the page
list `P`, reporting a next page exactly while further pages exist, with
the next page index (a truthy number) as continuation token; rounds past
the last page serve no nodes and report no next page. -/
def pageJson (P : List (List Json)) (t : Nat) : Json :=
  Json.obj [("pageInfo", Json.obj [
      ("hasNextPage", Json.bool (decide (t + 1 < P.length))),
      ("endCursor", Json.num (Int.ofNat (t + 1)))]),
    ("nodes", Json.arr (P.getD t []))]

/-- The full mocked GraphQL payload for round `t`: fixed pull-request
metadata and the three paged collections. -/
def mockPayload (Pc Pr Pt : List (List Json)) (t : Nat) : Json :=
  Json.obj [("data", Json.obj [("repository", Json.obj [("pullRequest", Json.obj [
    ("number", Json.num 1), ("url", Json.str "u"), ("title", Json.str "t"),
    ("state", Json.str "OPEN"),
    ("comments", pageJson Pc t), ("reviews", pageJson Pr t),
    ("reviewThreads", pageJson Pt t)])])])]

/-- Decode a continuation token produced by the mock back into a page
index (absent or foreign tokens decode to 0). -/
def jCursorNat : Json → Nat
  | .num n => n.toNat
  | _ => 0

/-- The mocked query responder for page lists `Pc`, `Pr`, `Pt`: a pure
function of the three cursors it is sent.  The round index is the largest
page index among the cursors (0 when all are cleared, i.e. the first
round); each collection then serves its page for that round, reporting
`hasNextPage` exactly while it has further pages. -/
def mockApi (Pc Pr Pt : List (List Json)) (cc rc tc : Json) : Except String Json :=
  .ok (mockPayload Pc Pr Pt (max (jCursorNat cc) (max (jCursorNat rc) (jCursorNat tc))))

/-- The cursor value held for a collection with `K` pages at the start of
round `u`: the continuation token `u` while pages remain, otherwise
cleared. -/
def mockCursor (K u : Nat) : Json :=
  if 0 < u ∧ u < K then Json.num (Int.ofNat u) else Json.null

/-- The pull-request metadata captured from the mocked first response. -/
def mockMeta : Json := Json.obj [("number", Json.num 1), ("url", Json.str "u"),
  ("title", Json.str "t"), ("state", Json.str "OPEN"),
  ("owner", Json.str "o"), ("repo", Json.str "r")]

/-- The expected log entry of round `t` against the mock. -/
def mockLog (Pc Pr Pt : List (List Json)) (t : Nat) : RoundLog :=
  ⟨mockCursor Pc.length t, mockCursor Pr.length t, mockCursor Pt.length t,
   mockPayload Pc Pr Pt t,
   mockCursor Pc.length (t + 1), mockCursor Pr.length (t + 1), mockCursor Pt.length (t + 1)⟩

/-- The expected loop state at the start of round `t` against the mock:
the pages already served are accumulated in order, the cursors hold the
round-`t` tokens, and the metadata is captured from round 0 on. -/
def mockState (Pc Pr Pt : List (List Json)) (t : Nat) : LoopSt :=
  ⟨((Pc.take t).flatten), ((Pr.take t).flatten), ((Pt.take t).flatten),
   mockCursor Pc.length t, mockCursor Pr.length t, mockCursor Pt.length t,
   if t = 0 then none else some mockMeta,
   (List.range t).map (mockLog Pc Pr Pt)⟩

/-- Total number of round trips the mock requires: the largest page count. -/
def mockMaxN (Pc Pr Pt : List (List Json)) : Nat :=
  max (max Pc.length Pr.length) Pt.length

/-- Decoding the mock cursor recovers the page index while pages remain. -/
theorem jCursorNat_mockCursor (K u : Nat) :
    jCursorNat (mockCursor K u) = if 0 < u ∧ u < K then u else 0 := by
  unfold mockCursor
  split_ifs with h <;> simp [jCursorNat]

/-- While rounds remain, the mock decodes the round index correctly from
the cursors the loop holds. -/
theorem mock_extract (Pc Pr Pt : List (List Json)) (t : Nat) (h : t < mockMaxN Pc Pr Pt) :
    max (jCursorNat (mockCursor Pc.length t))
      (max (jCursorNat (mockCursor Pr.length t)) (jCursorNat (mockCursor Pt.length t))) = t := by
  have h3 : t < Pc.length ∨ t < Pr.length ∨ t < Pt.length := by
    unfold mockMaxN at h
    rw [lt_max_iff, lt_max_iff] at h
    tauto
  simp only [jCursorNat_mockCursor]
  rcases Nat.eq_zero_or_pos t with h0 | h0
  · subst h0; simp
  · split_ifs <;> (simp only [Nat.max_def]; split_ifs <;> omega)

/-- Accumulating page `t` after the first `t` pages yields the first
`t + 1` pages. -/
theorem flatten_take_succ (P : List (List Json)) (t : Nat) :
    (P.take t).flatten ++ P.getD t [] = (P.take (t + 1)).flatten := by
  induction P generalizing t with
  | nil => simp
  | cons p ps ih =>
    cases t with
    | zero => simp
    | succ u => simp [List.getD_cons_succ, ← ih u]

/-- `x.get("nodes") or []` then iteration, on a mocked node list. -/
theorem pyIterE_pyOr_arr (l : List Json) :
    pyIterE (pyOr (Json.arr l) (Json.arr [])) = .ok l := by
  cases l <;> simp [pyOr, pyTruthyJ, pyIterE]

/-- The mocked collection yields its node list. -/
theorem pyGetAttrE_pageJson_nodes (P : List (List Json)) (t : Nat) :
    pyGetAttrE (pageJson P t) "nodes" = .ok (Json.arr (P.getD t [])) := by
  simp [pageJson, pyGetAttrE, jGetD, jlookup]

/-- The cursor update (lines 230-232) on the mocked collection yields the
round-`t + 1` cursor: the next token while pages remain, else cleared. -/
theorem nextCursorE_pageJson (P : List (List Json)) (t : Nat) :
    nextCursorE (pageJson P t) = .ok (mockCursor P.length (t + 1)) := by
  unfold nextCursorE pageJson mockCursor
  by_cases h : t + 1 < P.length <;>
    simp [pySubscrE, jlookup, pyTruthyJ, h, pure, Except.pure]

/-- One full round body against the mock, from any cursors that decode to
round `t`. -/
theorem roundCompute_mock (Pc Pr Pt : List (List Json)) (t : Nat) (needMeta : Bool)
    (cc rc tc : Json)
    (hext : max (jCursorNat cc) (max (jCursorNat rc) (jCursorNat tc)) = t) :
    roundCompute (mockApi Pc Pr Pt) (Json.str "o") (Json.str "r") needMeta cc rc tc
      = .ok ⟨mockPayload Pc Pr Pt t, if needMeta then some mockMeta else none,
             Pc.getD t [], Pr.getD t [], Pt.getD t [],
             mockCursor Pc.length (t + 1), mockCursor Pr.length (t + 1),
             mockCursor Pt.length (t + 1)⟩ := by
  unfold roundCompute mockApi
  rw [hext]
  cases needMeta <;>
    simp [mockPayload, mockMeta, pyInE, pySubscrE, jlookup, checkErrors, prOfE, metaOfPrE,
      collNodes, pyGetAttrE_pageJson_nodes, pyIterE_pyOr_arr, nextCursorE_pageJson]

/-- Truthiness of the mock cursor: truthy exactly while pages remain. -/
theorem pyTruthyJ_mockCursor (K u : Nat) :
    pyTruthyJ (mockCursor K u) = decide (0 < u ∧ u < K) := by
  unfold mockCursor
  split_ifs with h
  · simp [pyTruthyJ, h, bne]
    omega
  · simp [pyTruthyJ, h]

/-- `flatten_take_succ` restated in `getElem?` normal form. -/
theorem flatten_take_succ' (P : List (List Json)) (t : Nat) :
    (P.take t).flatten ++ (P[t]?.getD []) = (P.take (t + 1)).flatten := by
  have h := flatten_take_succ P t
  rwa [List.getD_eq_getElem?_getD] at h

/-- One iteration of the loop against the mock advances the expected
state by one round. -/
theorem fetchStep_mock (Pc Pr Pt : List (List Json)) (t : Nat) (h : t < mockMaxN Pc Pr Pt) :
    fetchStep (mockApi Pc Pr Pt) (Json.str "o") (Json.str "r") (mockState Pc Pr Pt t)
      = .ok (mockState Pc Pr Pt (t + 1)) := by
  have hext := mock_extract Pc Pr Pt t h
  have hneed : (mockState Pc Pr Pt t).prMeta.isNone = decide (t = 0) := by
    by_cases h0 : t = 0 <;> simp [mockState, h0]
  unfold fetchStep
  rw [show (mockState Pc Pr Pt t).curC = mockCursor Pc.length t from rfl,
      show (mockState Pc Pr Pt t).curR = mockCursor Pr.length t from rfl,
      show (mockState Pc Pr Pt t).curT = mockCursor Pt.length t from rfl,
      hneed, roundCompute_mock Pc Pr Pt t (decide (t = 0)) _ _ _ hext]
  rcases Nat.eq_zero_or_pos t with h0 | h0
  · subst h0
    simp [Except.map, mockState, mkRoundLog, mockLog, Option.orElse, List.range_succ]
    exact ⟨by simpa using flatten_take_succ' Pc 0,
           by simpa using flatten_take_succ' Pr 0,
           by simpa using flatten_take_succ' Pt 0⟩
  · have h0' : t ≠ 0 := by omega
    simp [Except.map, mockState, mkRoundLog, mockLog, Option.orElse, h0', List.range_succ]
    exact ⟨flatten_take_succ' Pc t, flatten_take_succ' Pr t, flatten_take_succ' Pt t⟩

/-- Against the mock, the loop continues after round `u - 1` exactly while
rounds remain. -/
theorem loopContinue_mock (Pc Pr Pt : List (List Json)) (u : Nat) (hu : 0 < u) :
    loopContinue (mockState Pc Pr Pt u) = decide (u < mockMaxN Pc Pr Pt) := by
  have h3 : u < mockMaxN Pc Pr Pt ↔ u < Pc.length ∨ u < Pr.length ∨ u < Pt.length := by
    unfold mockMaxN
    rw [lt_max_iff, lt_max_iff]
    tauto
  simp only [loopContinue, mockState, pyTruthyJ_mockCursor]
  by_cases hlt : u < mockMaxN Pc Pr Pt
  · rcases h3.mp hlt with h | h | h <;> simp [h, hu, hlt]
  · have hc : ¬ u < Pc.length := fun hh => hlt (h3.mpr (Or.inl hh))
    have hr : ¬ u < Pr.length := fun hh => hlt (h3.mpr (Or.inr (Or.inl hh)))
    have ht : ¬ u < Pt.length := fun hh => hlt (h3.mpr (Or.inr (Or.inr hh)))
    simp [hc, hr, ht, hlt]

/-- Invariant run of the loop against the mock: from the expected state of
any round still to be performed, with enough fuel, the loop ends normally
in the expected final state. -/
theorem fetchLoop_mock (Pc Pr Pt : List (List Json)) (fuel : Nat) :
    ∀ t : Nat, t < mockMaxN Pc Pr Pt → mockMaxN Pc Pr Pt - t ≤ fuel →
    fetchLoop (mockApi Pc Pr Pt) (Json.str "o") (Json.str "r") fuel (mockState Pc Pr Pt t)
      = .ok (mockState Pc Pr Pt (mockMaxN Pc Pr Pt)) := by
  induction fuel with
  | zero => intro t ht hf; omega
  | succ n ih =>
    intro t ht hf
    rw [fetchLoop, fetchStep_mock Pc Pr Pt t ht]
    dsimp only
    rw [loopContinue_mock Pc Pr Pt (t + 1) (Nat.succ_pos t)]
    by_cases h1 : t + 1 < mockMaxN Pc Pr Pt
    · simp only [h1, decide_True, if_true]
      exact ih (t + 1) h1 (by omega)
    · have heq : t + 1 = mockMaxN Pc Pr Pt := by omega
      rw [heq]
      simp

/-- Full run of `fetch_all`'s loop against the mock from the initial
state: it ends normally in the expected final state. -/
theorem fetchLoop_mock_run (Pc Pr Pt : List (List Json)) (fuel : Nat)
    (hpos : 0 < mockMaxN Pc Pr Pt) (hfuel : mockMaxN Pc Pr Pt ≤ fuel) :
    fetchLoop (mockApi Pc Pr Pt) (Json.str "o") (Json.str "r") fuel initSt
      = .ok (mockState Pc Pr Pt (mockMaxN Pc Pr Pt)) := by
  have h0 : mockState Pc Pr Pt 0 = initSt := rfl
  rw [← h0]
  exact fetchLoop_mock Pc Pr Pt fuel 0 hpos (by omega)


/-- Inversion of a successful metadata-capturing round: the payload is the
responder's answer to exactly the cursors sent, and the captured metadata
is `metaOfE` of that payload. -/
theorem roundCompute_meta_inv (api : Json → Json → Json → Except String Json) (ow rp : Json)
    (cc rc tc : Json) (d : RoundData)
    (h : roundCompute api ow rp true cc rc tc = .ok d) :
    api cc rc tc = .ok d.payload ∧
      ∃ m, d.metaFields = some m ∧ metaOfE d.payload ow rp = .ok m := by
  unfold roundCompute at h
  rw [exceptBindOkIff] at h
  obtain ⟨p, hapi, h⟩ := h
  rw [exceptBindOkIff] at h
  obtain ⟨u, hchk, h⟩ := h
  rw [exceptBindOkIff] at h
  obtain ⟨pr, hpr, h⟩ := h
  dsimp only at h
  rw [if_pos rfl] at h
  rw [exceptBindOkIff] at h
  obtain ⟨meta, hmeta, h⟩ := h
  rw [exceptBindOkIff] at h
  obtain ⟨c, hc, h⟩ := h
  rw [exceptBindOkIff] at h
  obtain ⟨r2, hr2, h⟩ := h
  rw [exceptBindOkIff] at h
  obtain ⟨t2, ht2, h⟩ := h
  rw [exceptBindOkIff] at h
  obtain ⟨cns, hcns, h⟩ := h
  rw [exceptBindOkIff] at h
  obtain ⟨rns, hrns, h⟩ := h
  rw [exceptBindOkIff] at h
  obtain ⟨tns, htns, h⟩ := h
  rw [exceptBindOkIff] at h
  obtain ⟨nC, hnC, h⟩ := h
  rw [exceptBindOkIff] at h
  obtain ⟨nR, hnR, h⟩ := h
  rw [exceptBindOkIff] at h
  obtain ⟨nT, hnT, h⟩ := h
  simp only [pure, Except.pure, Except.ok.injEq] at h
  subst h
  cases hmv : metaOfPrE pr ow rp with
  | error e => rw [hmv] at hmeta; simp [Functor.map, Except.map] at hmeta
  | ok mv =>
    rw [hmv] at hmeta
    simp only [Functor.map, Except.map, Except.ok.injEq] at hmeta
    refine ⟨hapi, mv, by simp [← hmeta], ?_⟩
    simp only [metaOfE]
    rw [exceptBindOkIff]
    exact ⟨pr, hpr, hmv⟩

/-- Once the metadata slot is filled, one loop iteration never changes it. -/
theorem fetchStep_prMeta_some (api : Json → Json → Json → Except String Json) (ow rp : Json)
    (st st' : LoopSt) (m : Json) (hm : st.prMeta = some m)
    (h : fetchStep api ow rp st = .ok st') : st'.prMeta = some m := by
  unfold fetchStep at h
  cases hrc : roundCompute api ow rp st.prMeta.isNone st.curC st.curR st.curT with
  | error e => rw [hrc] at h; simp [Except.map] at h
  | ok d =>
    rw [hrc] at h
    simp only [Except.map, Except.ok.injEq] at h
    rw [← h]
    simp [hm, Option.orElse]

/-- Once the metadata slot is filled, the rest of the loop never changes it. -/
theorem fetchLoop_prMeta_some (api : Json → Json → Json → Except String Json) (ow rp : Json)
    (fuel : Nat) :
    ∀ (st final : LoopSt) (m : Json), st.prMeta = some m →
    fetchLoop api ow rp fuel st = .ok final → final.prMeta = some m := by
  induction fuel with
  | zero => intro st final m hm h; simp [fetchLoop] at h
  | succ n ih =>
    intro st final m hm h
    rw [fetchLoop] at h
    cases hstep : fetchStep api ow rp st with
    | error e => rw [hstep] at h; simp at h
    | ok st1 =>
      rw [hstep] at h
      dsimp only at h
      have hm1 : st1.prMeta = some m := fetchStep_prMeta_some api ow rp st st1 m hm hstep
      by_cases hcont : loopContinue st1
      · rw [if_pos hcont] at h
        exact ih st1 final m hm1 h
      · rw [if_neg hcont] at h
        simp only [FetchRes.ok.injEq] at h
        rw [← h]
        exact hm1

/-- A normal run of the `fetch_all` loop captures its metadata from the
response to the very first request (all cursors cleared) and keeps it
regardless of what later responses contain. -/
theorem fetchLoop_meta_from_first (api : Json → Json → Json → Except String Json) (ow rp : Json)
    (fuel : Nat) (final : LoopSt)
    (h : fetchLoop api ow rp fuel initSt = .ok final) :
    ∃ p0 m, api .null .null .null = .ok p0 ∧ metaOfE p0 ow rp = .ok m ∧
      final.prMeta = some m := by
  cases fuel with
  | zero => simp [fetchLoop] at h
  | succ n =>
    rw [fetchLoop] at h
    cases hstep : fetchStep api ow rp initSt with
    | error e => rw [hstep] at h; simp at h
    | ok st1 =>
      rw [hstep] at h
      dsimp only at h
      unfold fetchStep at hstep
      cases hrc : roundCompute api ow rp initSt.prMeta.isNone initSt.curC initSt.curR initSt.curT with
      | error e => rw [hrc] at hstep; simp [Except.map] at hstep
      | ok d =>
        have hrc' : roundCompute api ow rp true .null .null .null = .ok d := by
          simpa [initSt] using hrc
        obtain ⟨hapi, m, hmf, hmeta⟩ := roundCompute_meta_inv api ow rp .null .null .null d hrc'
        rw [hrc] at hstep
        simp only [Except.map, Except.ok.injEq] at hstep
        have hm1 : st1.prMeta = some m := by
          rw [← hstep]
          simp [initSt, Option.orElse, hmf]
        refine ⟨d.payload, m, hapi, hmeta, ?_⟩
        by_cases hcont : loopContinue st1
        · rw [if_pos hcont] at h
          exact fetchLoop_prMeta_some api ow rp n st1 final m hm1 h
        · rw [if_neg hcont] at h
          simp only [FetchRes.ok.injEq] at h
          rw [← h]
          exact hm1

/-- A `/pull/<digit>` match somewhere in the character list means the list
contains a slash. -/
theorem hasPullL_slash_mem (l : List Char) (h : hasPullL l = true) : '/' ∈ l := by
  induction l with
  | nil => simp [hasPullL] at h
  | cons c rest ih =>
    rw [hasPullL] at h
    rcases Bool.or_eq_true_iff.mp h with h1 | h2
    · rcases rest with _ | ⟨c1, rest⟩
      · simp [pullAt] at h1
      rcases rest with _ | ⟨c2, rest⟩
      · simp [pullAt] at h1
      rcases rest with _ | ⟨c3, rest⟩
      · simp [pullAt] at h1
      rcases rest with _ | ⟨c4, rest⟩
      · simp [pullAt] at h1
      rcases rest with _ | ⟨c5, rest⟩
      · simp [pullAt] at h1
      rcases rest with _ | ⟨d, rest⟩
      · simp [pullAt] at h1
      simp only [pullAt, Bool.and_eq_true, beq_iff_eq] at h1
      rw [h1.1.1.1.1.1.1]
      exact List.mem_cons_self _ _
    · exact List.mem_cons_of_mem _ (ih h2)

/-- A string containing `/pull/<digit>` is not all digits. -/
theorem hasPullNum_not_digits (s : String) (h : hasPullNum s = true) : isDigits s = false := by
  have hmem := hasPullL_slash_mem s.data h
  apply Bool.eq_false_iff.mpr
  intro hd
  unfold isDigits at hd
  have hall := (Bool.and_eq_true _ _).mp hd |>.2
  have hslash := List.all_eq_true.mp hall '/' hmem
  simp [Char.isDigit] at hslash

/-- A string containing `/pull/<digit>` is not a `#`-number. -/
theorem hasPullNum_not_hashDigits (s : String) (h : hasPullNum s = true) :
    isHashDigits s = false := by
  have hmem := hasPullL_slash_mem s.data h
  apply Bool.eq_false_iff.mpr
  intro hd
  unfold isHashDigits at hd
  rcases hds : s.data with _ | ⟨c, rest⟩
  · rw [hds] at hd; simp at hd
  · rw [hds] at hd
    simp only [Bool.and_eq_true, beq_iff_eq] at hd
    rw [hds] at hmem
    rcases List.mem_cons.mp hmem with hc | hr
    · rw [hd.1] at hc; simp at hc
    · have := List.all_eq_true.mp hd.2.2 '/' hr
      simp [Char.isDigit] at this

/-- Full characterization of the issue reference parser's successes: after
stripping surrounding whitespace and removing every leading `#`, the rest
must be a nonempty digit string whose value is at least 1, and that value
is returned. -/
theorem parse_issue_number_ok_iff (s : String) (n : Nat) :
    _parse_issue_number s = .ok n ↔
      (isDigits (pyLstripHash (pyStrip s)) = true ∧
        n = strToNat (pyLstripHash (pyStrip s)) ∧ 1 ≤ n) := by
  unfold _parse_issue_number
  by_cases h1 : isDigits (pyLstripHash (pyStrip s)) = true
  · rw [if_pos h1]
    by_cases h2 : strToNat (pyLstripHash (pyStrip s)) < 1
    · rw [if_pos h2]
      constructor
      · intro hh; simp at hh
      · rintro ⟨_, hn, hge⟩; omega
    · rw [if_neg h2]
      simp only [Except.ok.injEq]
      constructor
      · intro hh; exact ⟨h1, hh.symm, by omega⟩
      · rintro ⟨_, hn, _⟩; exact hn.symm
  · rw [if_neg h1]
    constructor
    · intro hh; simp at hh
    · rintro ⟨hd, _, _⟩; exact absurd hd h1

/-- The issue reference parser rejects value 0 with the dedicated message. -/
theorem parse_issue_number_zero (s : String)
    (hd : isDigits (pyLstripHash (pyStrip s)) = true)
    (hz : strToNat (pyLstripHash (pyStrip s)) = 0) :
    _parse_issue_number s = .error "Issue number must be >= 1." := by
  unfold _parse_issue_number
  rw [if_pos hd, if_pos (by omega)]

/-- The PR reference parser accepts a stripped digit string unchanged. -/
theorem parse_pr_ref_digits (s : String) (h : isDigits (pyStrip s) = true) :
    _parse_pr_ref s = .ok (pyStrip s) := by
  unfold _parse_pr_ref
  by_cases hh : isHashDigits (pyStrip s) = true
  · exfalso
    unfold isDigits at h
    unfold isHashDigits at hh
    rcases hds : (pyStrip s).data with _ | ⟨c, rest⟩
    · rw [hds] at h; simp at h
    · rw [hds] at h hh
      simp only [Bool.and_eq_true, beq_iff_eq] at h hh
      have := h.2
      simp only [List.all_cons, Bool.and_eq_true] at this
      rw [hh.1] at this
      simp [Char.isDigit] at this
  · rw [if_neg hh, if_pos h]

/-- The PR reference parser turns a stripped `#`-number into the bare
number (every leading `#` removed). -/
theorem parse_pr_ref_hash (s : String) (h : isHashDigits (pyStrip s) = true) :
    _parse_pr_ref s = .ok (pyLstripHash (pyStrip s)) := by
  unfold _parse_pr_ref
  rw [if_pos h]

/-- `(x or {}).get(k)` on a value known to be a dict is a plain lookup. -/
theorem pyGetAttrE_pyOr_obj (a : Json) (ha : a.isObj = true) (k : String) :
    pyGetAttrE (pyOr a (Json.obj [])) k = .ok (jGetD a k) := by
  cases a with
  | obj kvs => cases kvs <;> simp [pyOr, pyTruthyJ, pyGetAttrE, jGetD, jlookup]
  | _ => simp [Json.isObj] at ha

/-- The issue comment normalizer flattens a nested author object to its
`login` value: a comment whose raw `author` is an object is emitted with
the scalar `author.login` in the flat `author` field. -/
theorem normalizeComment_flattens (c login : Json)
    (hobj : (jGetD c "author").isObj = true)
    (hlogin : jGetD (jGetD c "author") "login" = login) :
    normalizeComment c = .ok (Json.obj [("id", jGetD c "id"), ("author", login),
      ("createdAt", jGetD c "createdAt"), ("updatedAt", jGetD c "updatedAt"),
      ("body", pyOr (jGetD c "body") (Json.str ""))]) := by
  unfold normalizeComment
  rw [pyGetAttrE_pyOr_obj _ hobj, hlogin]
  rfl

/-- Issue normalization with the author, assignee, label, body and comments
fields null or absent: it succeeds, with `null` for the author, the empty
string for the body, and empty lists for assignees, labels and comments;
the remaining fields pass through. -/
theorem fetch_issue_normalize_defaults (kvs : List (String × Json))
    (hauthor : jGetD (Json.obj kvs) "author" = Json.null)
    (hassign : jGetD (Json.obj kvs) "assignees" = Json.null)
    (hlabels : jGetD (Json.obj kvs) "labels" = Json.null)
    (hbody : jGetD (Json.obj kvs) "body" = Json.null)
    (hcomments : jGetD (Json.obj kvs) "comments" = Json.null) :
    fetch_issue_normalize (Json.obj kvs) = .ok (Json.obj
      [("issue", Json.obj [
        ("number", jGetD (Json.obj kvs) "number"),
        ("title", jGetD (Json.obj kvs) "title"),
        ("url", jGetD (Json.obj kvs) "url"),
        ("state", jGetD (Json.obj kvs) "state"),
        ("body", Json.str ""),
        ("author", Json.null),
        ("createdAt", jGetD (Json.obj kvs) "createdAt"),
        ("updatedAt", jGetD (Json.obj kvs) "updatedAt"),
        ("assignees", Json.arr []),
        ("labels", Json.arr [])]),
       ("comments", Json.arr [])]) := by
  have hnil : ∀ k : String, jGetD (Json.obj []) k = Json.null := fun _ => rfl
  unfold fetch_issue_normalize
  simp [pyGetAttrE, hauthor, hassign, hlabels, hbody, hcomments, pyOr, pyTruthyJ, pyIterE,
    hnil, List.mapM.loop, pure, Except.pure]

/-- The cursor a round's response dictates for one collection: the
collection's `endCursor` if it reports `hasNextPage`, else `None`
(the rule of lines 230-232, as a function of the payload). -/
def cursorFromResponse (payload : Json) (key : String) : Except String Json := do
  let pr ← prOfE payload
  let coll ← pySubscrE pr key
  nextCursorE coll

/-- The log of a normal run (and `[]` on error or fuel exhaustion). -/
def finalLog : FetchRes → List RoundLog
  | .ok st => st.log
  | _ => []

/-- The accumulated conversation comments of a normal run. -/
def finalComments : FetchRes → List Json
  | .ok st => st.comments
  | _ => []

/-- Each collection's page count never exceeds the round count. -/
theorem mockMaxN_ub (Pc Pr Pt : List (List Json)) :
    Pc.length ≤ mockMaxN Pc Pr Pt ∧ Pr.length ≤ mockMaxN Pc Pr Pt ∧
      Pt.length ≤ mockMaxN Pc Pr Pt := by
  refine ⟨?_, ?_, ?_⟩ <;> unfold mockMaxN
  · exact le_max_of_le_left (le_max_left _ _)
  · exact le_max_of_le_left (le_max_right _ _)
  · exact le_max_right _ _

/-- The round count is one of the three page counts. -/
theorem mockMaxN_cases (Pc Pr Pt : List (List Json)) :
    mockMaxN Pc Pr Pt = Pc.length ∨ mockMaxN Pc Pr Pt = Pr.length ∨
      mockMaxN Pc Pr Pt = Pt.length := by
  unfold mockMaxN
  rcases max_choice (max Pc.length Pr.length) Pt.length with h | h
  · rcases max_choice Pc.length Pr.length with h2 | h2
    · rw [h, h2]; tauto
    · rw [h, h2]; tauto
  · rw [h]; tauto

/-- Reading the dictated cursor back out of a mocked response payload. -/
theorem cursorFromResponse_mock (Pc Pr Pt : List (List Json)) (t : Nat) :
    cursorFromResponse (mockPayload Pc Pr Pt t) "comments" = .ok (mockCursor Pc.length (t + 1)) ∧
    cursorFromResponse (mockPayload Pc Pr Pt t) "reviews" = .ok (mockCursor Pr.length (t + 1)) ∧
    cursorFromResponse (mockPayload Pc Pr Pt t) "reviewThreads"
        = .ok (mockCursor Pt.length (t + 1)) := by
  refine ⟨?_, ?_, ?_⟩ <;>
    simp [cursorFromResponse, prOfE, mockPayload, pySubscrE, jlookup, nextCursorE_pageJson]

/-- A cleared mock cursor stays cleared at every later round. -/
theorem mockCursor_falsy_mono (K j k : Nat) (hjk : j + 1 ≤ k)
    (h : pyTruthyJ (mockCursor K (j + 1)) = false) : pyTruthyJ (mockCursor K k) = false := by
  rw [pyTruthyJ_mockCursor] at h ⊢
  simp only [decide_eq_false_iff_not] at h ⊢
  omega

/-- After round `k` the three mock cursors are all cleared exactly when
`k` was the final round. -/
theorem mock_all_falsy_iff (Pc Pr Pt : List (List Json)) (k : Nat)
    (hk : k < mockMaxN Pc Pr Pt) :
    ((pyTruthyJ (mockCursor Pc.length (k + 1)) || pyTruthyJ (mockCursor Pr.length (k + 1)) ||
        pyTruthyJ (mockCursor Pt.length (k + 1))) = false) ↔
      k + 1 = mockMaxN Pc Pr Pt := by
  have hub := mockMaxN_ub Pc Pr Pt
  have hcase := mockMaxN_cases Pc Pr Pt
  simp only [pyTruthyJ_mockCursor, Bool.or_eq_false_iff, decide_eq_false_iff_not]
  omega

/-- Decompose an index into the mock log. -/
theorem mock_log_get (Pc Pr Pt : List (List Json)) (k : Nat) (e : RoundLog)
    (h : ((List.range (mockMaxN Pc Pr Pt)).map (mockLog Pc Pr Pt)).get? k = some e) :
    k < mockMaxN Pc Pr Pt ∧ e = mockLog Pc Pr Pt k := by
  rw [List.get?_map] at h
  cases hk : (List.range (mockMaxN Pc Pr Pt)).get? k with
  | none => rw [hk] at h; simp at h
  | some a =>
    rw [hk] at h
    have hlt : k < mockMaxN Pc Pr Pt := by
      have := List.get?_eq_some.mp hk
      simpa [List.length_range] using this.1
    rw [List.get?_range hlt] at hk
    simp only [Option.some.injEq] at hk
    cases hk
    refine ⟨hlt, ?_⟩
    simpa using h.symm

/-- C1 (amended): against a mocked responder serving `N` pages per
collection (the last page of each collection reporting
`hasNextPage=false`, the earlier ones `true`), `fetch_all` performs
exactly `max(N_comments, N_reviews, N_threads)` round trips — that is,
`max(K) + 1` when `K` counts only the pages reporting `hasNextPage=true`,
one more than the claim states — and each accumulated sequence is exactly
the concatenation of that collection's pages in page order (hence without
duplicates whenever the mocked pages are duplicate-free). -/
theorem c1_pagination_amended (Pc Pr Pt : List (List Json)) (fuel : Nat)
    (hc : Pc ≠ []) (hr : Pr ≠ []) (ht : Pt ≠ []) (hfuel : mockMaxN Pc Pr Pt ≤ fuel) :
    ∃ final, fetchLoop (mockApi Pc Pr Pt) (Json.str "o") (Json.str "r") fuel initSt = .ok final
      ∧ final.log.length = mockMaxN Pc Pr Pt
      ∧ final.comments = Pc.flatten ∧ final.reviews = Pr.flatten ∧ final.threads = Pt.flatten
      ∧ (Pc.flatten.Nodup → final.comments.Nodup)
      ∧ (Pr.flatten.Nodup → final.reviews.Nodup)
      ∧ (Pt.flatten.Nodup → final.threads.Nodup) := by
  have hpos : 0 < mockMaxN Pc Pr Pt := by
    have h1 : 0 < Pc.length := List.length_pos.mpr hc
    have h2 := (mockMaxN_ub Pc Pr Pt).1
    omega
  have hrun := fetchLoop_mock_run Pc Pr Pt fuel hpos hfuel
  have htc := List.take_of_length_le (mockMaxN_ub Pc Pr Pt).1
  have htr := List.take_of_length_le (mockMaxN_ub Pc Pr Pt).2.1
  have htt := List.take_of_length_le (mockMaxN_ub Pc Pr Pt).2.2
  refine ⟨mockState Pc Pr Pt (mockMaxN Pc Pr Pt), hrun, ?_, ?_, ?_, ?_, ?_, ?_, ?_⟩
  · simp [mockState]
  · simp [mockState, htc]
  · simp [mockState, htr]
  · simp [mockState, htt]
  · intro hnd; simpa [mockState, htc] using hnd
  · intro hnd; simpa [mockState, htr] using hnd
  · intro hnd; simpa [mockState, htt] using hnd

/-- C1 witness: a concrete run with 2 comment pages, 1 review page and 3
thread pages takes exactly 3 round trips and accumulates every page. -/
theorem c1_pagination_amended_witness :
    ∃ final, fetchLoop (mockApi [[Json.num 1], [Json.num 2]] [[Json.num 3]]
        [[Json.num 4], [Json.num 5], [Json.num 6]]) (Json.str "o") (Json.str "r") 3 initSt
        = .ok final
      ∧ final.log.length
          = mockMaxN [[Json.num 1], [Json.num 2]] [[Json.num 3]]
              [[Json.num 4], [Json.num 5], [Json.num 6]]
      ∧ final.comments = List.flatten [[Json.num 1], [Json.num 2]]
      ∧ final.reviews = List.flatten [[Json.num 3]]
      ∧ final.threads = List.flatten [[Json.num 4], [Json.num 5], [Json.num 6]]
      ∧ (List.flatten [[Json.num 1], [Json.num 2]] |>.Nodup → final.comments.Nodup)
      ∧ (List.flatten [[Json.num 3]] |>.Nodup → final.reviews.Nodup)
      ∧ (List.flatten [[Json.num 4], [Json.num 5], [Json.num 6]] |>.Nodup
          → final.threads.Nodup) :=
  c1_pagination_amended [[Json.num 1], [Json.num 2]] [[Json.num 3]]
    [[Json.num 4], [Json.num 5], [Json.num 6]] 3
    (by simp) (by simp) (by simp) (by decide)

/-- C1 counterexample: a responder that reports `hasNextPage=true` for
exactly one page per collection (`K = 1` for all three, each collection
having 2 pages) makes `fetch_all` perform 2 round trips, not
`max(K_comments, K_reviews, K_threads) = 1` as the claim states. -/
theorem c1_round_trips_counterexample :
    (finalLog (fetchLoop (mockApi [[Json.num 10], [Json.num 11]]
        [[Json.num 20], [Json.num 21]] [[Json.num 30], [Json.num 31]])
        (Json.str "o") (Json.str "r") 5 initSt)).length = 2 :=
  rfl

/-- C2 (amended): against the well-behaved paged mock (which, as the spec's
design notes assume, never reports further pages for a collection whose
cursor it was not sent), the `fetch_all` loop satisfies: (1) after every
round trip each cursor equals the round's `endCursor` if that round
reported `hasNextPage` for the collection, else it is cleared; (2) once a
collection's cursor is cleared it is never truthy (hence never sent) in
any later request; (3) the loop exits normally after a round trip exactly
when all three cursors are simultaneously cleared. -/
theorem c2_cursor_invariants_amended (Pc Pr Pt : List (List Json)) (fuel : Nat)
    (hc : Pc ≠ []) (hr : Pr ≠ []) (ht : Pt ≠ []) (hfuel : mockMaxN Pc Pr Pt ≤ fuel) :
    ∃ final, fetchLoop (mockApi Pc Pr Pt) (Json.str "o") (Json.str "r") fuel initSt = .ok final
      ∧ (∀ k e, final.log.get? k = some e →
          cursorFromResponse e.payload "comments" = .ok e.curC ∧
          cursorFromResponse e.payload "reviews" = .ok e.curR ∧
          cursorFromResponse e.payload "reviewThreads" = .ok e.curT)
      ∧ (∀ j k ej ek, j < k → final.log.get? j = some ej → final.log.get? k = some ek →
          (pyTruthyJ ej.curC = false → pyTruthyJ ek.reqC = false) ∧
          (pyTruthyJ ej.curR = false → pyTruthyJ ek.reqR = false) ∧
          (pyTruthyJ ej.curT = false → pyTruthyJ ek.reqT = false))
      ∧ (∀ k e, final.log.get? k = some e →
          (((pyTruthyJ e.curC || pyTruthyJ e.curR) || pyTruthyJ e.curT) = false ↔
            k + 1 = final.log.length)) := by
  have hpos : 0 < mockMaxN Pc Pr Pt := by
    have h1 : 0 < Pc.length := List.length_pos.mpr hc
    have h2 := (mockMaxN_ub Pc Pr Pt).1
    omega
  have hrun := fetchLoop_mock_run Pc Pr Pt fuel hpos hfuel
  refine ⟨mockState Pc Pr Pt (mockMaxN Pc Pr Pt), hrun, ?_, ?_, ?_⟩
  · intro k e he
    obtain ⟨hk, rfl⟩ := mock_log_get Pc Pr Pt k e (by simpa [mockState] using he)
    simpa [mockLog] using cursorFromResponse_mock Pc Pr Pt k
  · intro j k ej ek hjk hj hk2
    obtain ⟨hjlt, rfl⟩ := mock_log_get Pc Pr Pt j ej (by simpa [mockState] using hj)
    obtain ⟨hklt, rfl⟩ := mock_log_get Pc Pr Pt k ek (by simpa [mockState] using hk2)
    refine ⟨?_, ?_, ?_⟩ <;> intro hf <;> simp only [mockLog] at hf ⊢
    · exact mockCursor_falsy_mono _ j k (by omega) hf
    · exact mockCursor_falsy_mono _ j k (by omega) hf
    · exact mockCursor_falsy_mono _ j k (by omega) hf
  · intro k e he
    obtain ⟨hk, rfl⟩ := mock_log_get Pc Pr Pt k e (by simpa [mockState] using he)
    simp only [mockLog]
    have hiff := mock_all_falsy_iff Pc Pr Pt k hk
    simpa [mockState] using hiff

/-- C2 witness: the invariants instantiated on a concrete 2-page run. -/
theorem c2_cursor_invariants_amended_witness :
    ∃ final, fetchLoop (mockApi [[Json.num 1], [Json.num 2]] [[Json.num 3]] [[Json.num 4]])
        (Json.str "o") (Json.str "r") 2 initSt = .ok final
      ∧ (∀ k e, final.log.get? k = some e →
          cursorFromResponse e.payload "comments" = .ok e.curC ∧
          cursorFromResponse e.payload "reviews" = .ok e.curR ∧
          cursorFromResponse e.payload "reviewThreads" = .ok e.curT)
      ∧ (∀ j k ej ek, j < k → final.log.get? j = some ej → final.log.get? k = some ek →
          (pyTruthyJ ej.curC = false → pyTruthyJ ek.reqC = false) ∧
          (pyTruthyJ ej.curR = false → pyTruthyJ ek.reqR = false) ∧
          (pyTruthyJ ej.curT = false → pyTruthyJ ek.reqT = false))
      ∧ (∀ k e, final.log.get? k = some e →
          (((pyTruthyJ e.curC || pyTruthyJ e.curR) || pyTruthyJ e.curT) = false ↔
            k + 1 = final.log.length)) :=
  c2_cursor_invariants_amended [[Json.num 1], [Json.num 2]] [[Json.num 3]] [[Json.num 4]] 2
    (by simp) (by simp) (by simp) (by decide)

/-- The mocked collection object used by the C2 counterexample. -/
def c2coll (hasNext : Bool) (cursor : Json) : Json :=
  Json.obj [("pageInfo", Json.obj [("hasNextPage", Json.bool hasNext), ("endCursor", cursor)]),
    ("nodes", Json.arr [])]

/-- A full mocked payload for the C2 counterexample. -/
def c2payload (comments reviews threads : Json) : Json :=
  Json.obj [("data", Json.obj [("repository", Json.obj [("pullRequest", Json.obj
    [("number", Json.num 1), ("url", Json.str "u"), ("title", Json.str "t"),
     ("state", Json.str "OPEN"),
     ("comments", comments), ("reviews", reviews), ("reviewThreads", threads)])])])]

/-- The adversarial responder of the C2 counterexample: round 0 reports no
further comment pages; round 1 (reached through the reviews cursor)
reports a further comment page after all; round 2 ends everything. -/
def c2api (cc rc tc : Json) : Except String Json :=
  match cc, rc with
  | Json.num 5, _ => .ok (c2payload (c2coll false .null) (c2coll false .null) (c2coll false .null))
  | _, Json.num 1 => .ok (c2payload (c2coll true (Json.num 5)) (c2coll false .null)
      (c2coll false .null))
  | _, _ => .ok (c2payload (c2coll false .null) (c2coll true (Json.num 1)) (c2coll false .null))

/-- C2 counterexample: with the adversarial responder, the comments cursor
is cleared after round 0 (truthiness `false` in the first log entry's
post-state and in round 1's request) yet round 2's request sends a truthy
comments cursor again — a cleared cursor is re-sent, so the claim's
"once cleared, never re-sent" invariant does not hold unconditionally. -/
theorem c2_cursor_counterexample :
    (finalLog (fetchLoop c2api (Json.str "o") (Json.str "r") 5 initSt)).map
        (fun e => (pyTruthyJ e.curC, pyTruthyJ e.reqC))
      = [(false, false), (true, false), (false, true)] := rfl

/-- C3 (amended): only the issue pipeline reshapes nested author objects
into flat scalar fields — each issue comment is emitted with the raw
comment's `author.login` value in its flat `author` field; the
conversation fetch pipeline appends the response nodes unchanged (its
accumulated comments are exactly the raw page nodes, nested author
objects included); and the diff pipeline returns the raw metadata payload
unchanged in its `pr` field. -/
theorem c3_reshaping_amended :
    (∀ c login, (jGetD c "author").isObj = true → jGetD (jGetD c "author") "login" = login →
        normalizeComment c = .ok (Json.obj [("id", jGetD c "id"), ("author", login),
          ("createdAt", jGetD c "createdAt"), ("updatedAt", jGetD c "updatedAt"),
          ("body", pyOr (jGetD c "body") (Json.str ""))])) ∧
    (∀ Pc Pr Pt fuel, Pc ≠ ([] : List (List Json)) → Pr ≠ [] → Pt ≠ [] →
        mockMaxN Pc Pr Pt ≤ fuel →
        finalComments (fetchLoop (mockApi Pc Pr Pt) (Json.str "o") (Json.str "r") fuel initSt)
          = Pc.flatten) ∧
    (∀ loads env prRef res, diffPipeline loads env prRef = .ok res →
        ∃ prJson diff, res = Json.obj [("pr", prJson), ("diff", Json.str diff)] ∧
          _get_pr_view_json loads env prRef = .ok prJson) := by
  refine ⟨?_, ?_, ?_⟩
  · intro c login hobj hlogin
    exact normalizeComment_flattens c login hobj hlogin
  · intro Pc Pr Pt fuel hc hr ht hfuel
    have hpos : 0 < mockMaxN Pc Pr Pt := by
      have h1 : 0 < Pc.length := List.length_pos.mpr hc
      have h2 := (mockMaxN_ub Pc Pr Pt).1
      omega
    rw [fetchLoop_mock_run Pc Pr Pt fuel hpos hfuel]
    simp [finalComments, mockState, List.take_of_length_le (mockMaxN_ub Pc Pr Pt).1]
  · intro loads env prRef res h
    unfold diffPipeline at h
    rw [exceptBindOkIff] at h
    obtain ⟨u, hens, h⟩ := h
    rw [exceptBindOkIff] at h
    obtain ⟨prJson, hpr, h⟩ := h
    rw [exceptBindOkIff] at h
    obtain ⟨diff, hdiff, h⟩ := h
    simp only [pure, Except.pure, Except.ok.injEq] at h
    exact ⟨prJson, diff, h.symm, hpr⟩

/-- C3 witness: the three passthrough/flattening facts at concrete inputs. -/
theorem c3_reshaping_amended_witness :
    normalizeComment (Json.obj [("author", Json.obj [("login", Json.str "bob")])])
      = .ok (Json.obj [
          ("id", jGetD (Json.obj [("author", Json.obj [("login", Json.str "bob")])]) "id"),
          ("author", Json.str "bob"),
          ("createdAt", jGetD (Json.obj [("author", Json.obj [("login", Json.str "bob")])])
            "createdAt"),
          ("updatedAt", jGetD (Json.obj [("author", Json.obj [("login", Json.str "bob")])])
            "updatedAt"),
          ("body", pyOr (jGetD (Json.obj [("author", Json.obj [("login", Json.str "bob")])])
            "body") (Json.str ""))]) :=
  c3_reshaping_amended.1 (Json.obj [("author", Json.obj [("login", Json.str "bob")])])
    (Json.str "bob") rfl rfl

/-- The raw conversation comment node used by the C3 counterexample; its
author is a nested object, not a flat scalar. -/
def c3node : Json := Json.obj [("id", Json.str "c1"), ("body", Json.str "hi"),
  ("author", Json.obj [("login", Json.str "alice")])]

/-- C3 counterexample: the conversation fetch pipeline emits the raw node
unchanged, so the emitted comment record's `author` field is the nested
object `{"login": "alice"}` and not a flat scalar login — the claim that
every pipeline (in particular the conversation one) flattens author
objects is false. -/
theorem c3_flatten_counterexample :
    finalComments (fetchLoop (mockApi [[c3node]] [[]] [[]]) (Json.str "o") (Json.str "r")
        1 initSt) = [c3node]
      ∧ jGetD c3node "author" = Json.obj [("login", Json.str "alice")]
      ∧ (jGetD c3node "author").isStr = false :=
  ⟨rfl, rfl, rfl⟩

/-- C4 (amended): issue normalization with the author, assignee, label,
body and comments fields null or absent succeeds — it never raises — and
yields `null` (not the empty string) for the author, the empty string for
the body, and empty lists for assignees, labels and comments, while the
remaining fields pass through unchanged. -/
theorem c4_normalization_amended (kvs : List (String × Json))
    (hauthor : jGetD (Json.obj kvs) "author" = Json.null)
    (hassign : jGetD (Json.obj kvs) "assignees" = Json.null)
    (hlabels : jGetD (Json.obj kvs) "labels" = Json.null)
    (hbody : jGetD (Json.obj kvs) "body" = Json.null)
    (hcomments : jGetD (Json.obj kvs) "comments" = Json.null) :
    fetch_issue_normalize (Json.obj kvs) = .ok (Json.obj
      [("issue", Json.obj [
        ("number", jGetD (Json.obj kvs) "number"),
        ("title", jGetD (Json.obj kvs) "title"),
        ("url", jGetD (Json.obj kvs) "url"),
        ("state", jGetD (Json.obj kvs) "state"),
        ("body", Json.str ""),
        ("author", Json.null),
        ("createdAt", jGetD (Json.obj kvs) "createdAt"),
        ("updatedAt", jGetD (Json.obj kvs) "updatedAt"),
        ("assignees", Json.arr []),
        ("labels", Json.arr [])]),
       ("comments", Json.arr [])]) :=
  fetch_issue_normalize_defaults kvs hauthor hassign hlabels hbody hcomments

/-- C4 witness: normalization of a payload carrying only a title. -/
theorem c4_normalization_amended_witness :
    fetch_issue_normalize (Json.obj [("title", Json.str "T")]) = .ok (Json.obj
      [("issue", Json.obj [
        ("number", Json.null), ("title", Json.str "T"), ("url", Json.null),
        ("state", Json.null), ("body", Json.str ""), ("author", Json.null),
        ("createdAt", Json.null), ("updatedAt", Json.null),
        ("assignees", Json.arr []), ("labels", Json.arr [])]),
       ("comments", Json.arr [])]) := by
  have h := c4_normalization_amended [("title", Json.str "T")] rfl rfl rfl rfl rfl
  simpa [jGetD, jlookup] using h

/-- C4 counterexample: on the empty payload, normalization succeeds but
the author field of the normalized record is `null`, not the empty string
the claim requires. -/
theorem c4_normalization_counterexample :
    fetch_issue_normalize (Json.obj []) = .ok (Json.obj
      [("issue", Json.obj [
        ("number", Json.null), ("title", Json.null), ("url", Json.null),
        ("state", Json.null), ("body", Json.str ""), ("author", Json.null),
        ("createdAt", Json.null), ("updatedAt", Json.null),
        ("assignees", Json.arr []), ("labels", Json.arr [])]),
       ("comments", Json.arr [])])
      ∧ jsonBeq Json.null (Json.str "") = false :=
  ⟨rfl, rfl⟩

/-- C5 (amended): the issue reference parser accepts exactly the strings
that, after stripping surrounding whitespace and removing every leading
`#` (not just one), are nonempty digit strings of value N ≥ 1, and yields
that value; digit strings of value 0 fail with the dedicated message (and
negative forms fail, having a non-digit sign character); the PR reference
parser accepts stripped digit and `#`-digit forms, yielding the bare
numeral string. -/
theorem c5_parser_amended :
    (∀ s n, _parse_issue_number s = .ok n ↔
      (isDigits (pyLstripHash (pyStrip s)) = true ∧
        n = strToNat (pyLstripHash (pyStrip s)) ∧ 1 ≤ n)) ∧
    (∀ s, isDigits (pyLstripHash (pyStrip s)) = true →
      strToNat (pyLstripHash (pyStrip s)) = 0 →
      _parse_issue_number s = .error "Issue number must be >= 1.") ∧
    (∀ s, isDigits (pyStrip s) = true → _parse_pr_ref s = .ok (pyStrip s)) ∧
    (∀ s, isHashDigits (pyStrip s) = true → _parse_pr_ref s = .ok (pyLstripHash (pyStrip s))) :=
  ⟨parse_issue_number_ok_iff,
   fun s h1 h2 => parse_issue_number_zero s h1 (by omega),
   parse_pr_ref_digits,
   parse_pr_ref_hash⟩

/-- C5 witness: `#42` parses to 42, `0` is rejected as below 1, and the PR
parser maps `" 7 "` to `"7"`. -/
theorem c5_parser_amended_witness :
    _parse_issue_number "#42" = .ok 42
      ∧ _parse_issue_number "0" = .error "Issue number must be >= 1."
      ∧ _parse_pr_ref " 7 " = .ok (pyStrip " 7 ") :=
  ⟨(c5_parser_amended.1 "#42" 42).mpr ⟨rfl, rfl, by omega⟩,
   c5_parser_amended.2.1 "0" rfl rfl,
   c5_parser_amended.2.2.1 " 7 " rfl⟩

/-- C5 counterexample: `"##7"` is not a decimal numeral with or without a
single leading `#` (it is neither all digits nor `#` followed by digits),
yet the issue parser accepts it and yields 7, because `lstrip("#")`
removes every leading `#` — so "for every other string it fails" is
false. -/
theorem c5_parser_counterexample :
    _parse_issue_number "##7" = .ok 7
      ∧ (isDigits "##7" || isHashDigits "##7") = false :=
  ⟨rfl, rfl⟩

/-- C10 (confirmed): any string whose stripped form contains `/pull/`
followed by a digit anywhere is accepted by the PR reference parser and
returned stripped but otherwise unchanged, URL or not — such a string can
match neither of the two numeric forms, and the `/pull/` search is an
unanchored substring search. -/
theorem c10_pull_url_passthrough (s : String) (h : hasPullNum (pyStrip s) = true) :
    _parse_pr_ref s = .ok (pyStrip s) := by
  have h1 := hasPullNum_not_hashDigits (pyStrip s) h
  have h2 := hasPullNum_not_digits (pyStrip s) h
  unfold _parse_pr_ref
  rw [if_neg (by simp [h1]), if_neg (by simp [h2]), if_pos h]

/-- C10 witness: `" x/pull/9y "` is not a URL yet is accepted and returned
stripped. -/
theorem c10_pull_url_passthrough_witness :
    hasPullNum (pyStrip " x/pull/9y ") = true
      ∧ _parse_pr_ref " x/pull/9y " = .ok (pyStrip " x/pull/9y ") :=
  ⟨rfl, c10_pull_url_passthrough " x/pull/9y " rfl⟩

/-- C7 (confirmed): whenever the authentication probe process exits
non-zero, `_ensure_gh_authenticated` fails with the fixed remediation
message — which does not depend on the probe's stderr or exit status, so
the underlying process failure is never surfaced — and each of the three
pipelines then fails with exactly that message (the issue pipeline once
its reference has parsed). -/
theorem c7_auth_guard :
    (∀ env : Env, (env ["gh", "auth", "status"] none).returncode ≠ 0 →
      _ensure_gh_authenticated env = .error authErrMsg) ∧
    (∀ (loads : Loads) (env : Env) (arg : String) (n : Nat),
      _parse_issue_number arg = .ok n →
      (env ["gh", "auth", "status"] none).returncode ≠ 0 →
      issuePipeline loads env arg = .error authErrMsg) ∧
    (∀ (loads : Loads) (env : Env) (prRef : Option String) (fuel : Nat),
      (env ["gh", "auth", "status"] none).returncode ≠ 0 →
      prcPipeline loads env prRef fuel = .err authErrMsg) ∧
    (∀ (loads : Loads) (env : Env) (prRef : Option String),
      (env ["gh", "auth", "status"] none).returncode ≠ 0 →
      diffPipeline loads env prRef = .error authErrMsg) := by
  have hens : ∀ env : Env, (env ["gh", "auth", "status"] none).returncode ≠ 0 →
      _ensure_gh_authenticated env = .error authErrMsg := by
    intro env h
    unfold _ensure_gh_authenticated _run
    rw [if_pos h]
  refine ⟨hens, ?_, ?_, ?_⟩
  · intro loads env arg n hparse h
    unfold issuePipeline
    rw [hparse, exceptBindOk, hens env h]
    rfl
  · intro loads env prRef fuel h
    unfold prcPipeline
    rw [hens env h]
    rfl
  · intro loads env prRef h
    unfold diffPipeline
    rw [hens env h]
    rfl

/-- C7 witness: a probe environment exiting 1 yields the fixed message in
the guard and in all three pipelines. -/
theorem c7_auth_guard_witness :
    _ensure_gh_authenticated (fun _ _ => ⟨1, "", "boom"⟩) = .error authErrMsg
      ∧ issuePipeline (fun _ => .error "x") (fun _ _ => ⟨1, "", "boom"⟩) "42"
          = .error authErrMsg
      ∧ prcPipeline (fun _ => .error "x") (fun _ _ => ⟨1, "", "boom"⟩) none 1
          = .err authErrMsg
      ∧ diffPipeline (fun _ => .error "x") (fun _ _ => ⟨1, "", "boom"⟩) none
          = .error authErrMsg :=
  ⟨c7_auth_guard.1 (fun _ _ => ⟨1, "", "boom"⟩) (by decide),
   c7_auth_guard.2.1 (fun _ => .error "x") (fun _ _ => ⟨1, "", "boom"⟩) "42" 42 rfl (by decide),
   c7_auth_guard.2.2.1 (fun _ => .error "x") (fun _ _ => ⟨1, "", "boom"⟩) none 1 (by decide),
   c7_auth_guard.2.2.2 (fun _ => .error "x") (fun _ _ => ⟨1, "", "boom"⟩) none (by decide)⟩

/-- C8 (confirmed): whenever the `fetch_all` loop ends normally, the
pull-request metadata of the final state — and the `pull_request` field
of the assembled result — is exactly `metaOfE` of the response to the
very first round trip (the request with all three cursors cleared), no
matter what any later response contains. -/
theorem c8_metadata_once (api : Json → Json → Json → Except String Json) (ow rp : Json)
    (fuel : Nat) (final : LoopSt)
    (h : fetchLoop api ow rp fuel initSt = .ok final) :
    ∃ p0 m, api .null .null .null = .ok p0 ∧ metaOfE p0 ow rp = .ok m ∧
      final.prMeta = some m ∧
      ∃ rest, assembleResult final = .ok (Json.obj (("pull_request", m) :: rest)) := by
  obtain ⟨p0, m, hapi, hmeta, hpm⟩ := fetchLoop_meta_from_first api ow rp fuel final h
  refine ⟨p0, m, hapi, hmeta, hpm, ?_⟩
  unfold assembleResult
  rw [hpm]
  exact ⟨_, rfl⟩

/-- C8 witness: the metadata of a concrete one-round mock run is the first
response's metadata. -/
theorem c8_metadata_once_witness :
    ∃ p0 m, mockApi [[Json.num 7]] [[]] [[]] Json.null Json.null Json.null = .ok p0
      ∧ metaOfE p0 (Json.str "o") (Json.str "r") = .ok m
      ∧ (mockState [[Json.num 7]] [[]] [[]] 1).prMeta = some m
      ∧ ∃ rest, assembleResult (mockState [[Json.num 7]] [[]] [[]] 1)
          = .ok (Json.obj (("pull_request", m) :: rest)) :=
  c8_metadata_once (mockApi [[Json.num 7]] [[]] [[]]) (Json.str "o") (Json.str "r") 1
    (mockState [[Json.num 7]] [[]] [[]] 1) rfl

/-- A `json.loads` stand-in that rejects everything (no claim below feeds
it valid JSON). -/
def trivLoads : Loads := fun _ => .error "invalid json"

/-- A process environment whose every invocation fails with exit status 1. -/
def trivEnv : Env := fun _ _ => ⟨1, "", "no gh"⟩

/-- C6 (amended): wrong argument counts exit with status 2 and the usage
line on stderr in all three programs; in `fetch_issue` every error is
caught — `main` never lets an exception escape — and a failing pipeline
exits with status 1 and the bare message on stderr; in the two PR
programs the reference is parsed *before* the `try` block, so an
invalid-reference error (and exactly that error) escapes `main` uncaught
(the interpreter prints a traceback and exits 1 on its own), while every
error raised inside the pipeline is caught and exits with status 1 and
the message on stderr. -/
theorem c6_error_handling_amended :
    (∀ (loads : Loads) (env : Env) (argv : List String), argv.length ≠ 2 →
      main_fetch_issue loads env argv = .exited 2 "" (issueUsage ++ "\n")) ∧
    (∀ (loads : Loads) (env : Env) (argv : List String) (fuel : Nat), 2 < argv.length →
      main_fetch_pr_comments loads env argv fuel = .exited 2 "" (prcUsage ++ "\n")) ∧
    (∀ (loads : Loads) (env : Env) (argv : List String), 2 < argv.length →
      main_fetch_pr_diff loads env argv = .exited 2 "" (diffUsage ++ "\n")) ∧
    (∀ (loads : Loads) (env : Env) (argv : List String) (e : String),
      main_fetch_issue loads env argv ≠ .uncaught e) ∧
    (∀ (loads : Loads) (env : Env) (argv : List String) (fuel : Nat) (e : String),
      main_fetch_pr_comments loads env argv fuel = .uncaught e ↔
        (argv.length = 2 ∧ _parse_pr_ref (argv.getD 1 "") = .error e)) ∧
    (∀ (loads : Loads) (env : Env) (argv : List String) (e : String),
      main_fetch_pr_diff loads env argv = .uncaught e ↔
        (argv.length = 2 ∧ _parse_pr_ref (argv.getD 1 "") = .error e)) ∧
    (∀ (loads : Loads) (env : Env) (argv : List String) (e : String), argv.length = 2 →
      issuePipeline loads env (argv.getD 1 "") = .error e →
      main_fetch_issue loads env argv = .exited 1 "" (e ++ "\n")) ∧
    (∀ (loads : Loads) (env : Env) (argv : List String) (fuel : Nat)
        (prRef : Option String) (e : String), ¬ 2 < argv.length →
      (if argv.length = 2 then (_parse_pr_ref (argv.getD 1 "")).map some
       else (.ok none : Except String (Option String))) = .ok prRef →
      prcPipeline loads env prRef fuel = .err e →
      main_fetch_pr_comments loads env argv fuel = .exited 1 "" (e ++ "\n")) ∧
    (∀ (loads : Loads) (env : Env) (argv : List String)
        (prRef : Option String) (e : String), ¬ 2 < argv.length →
      (if argv.length = 2 then (_parse_pr_ref (argv.getD 1 "")).map some
       else (.ok none : Except String (Option String))) = .ok prRef →
      diffPipeline loads env prRef = .error e →
      main_fetch_pr_diff loads env argv = .exited 1 "" (e ++ "\n")) := by
  refine ⟨?_, ?_, ?_, ?_, ?_, ?_, ?_, ?_, ?_⟩
  · intro loads env argv h
    unfold main_fetch_issue
    rw [if_pos h]
  · intro loads env argv fuel h
    unfold main_fetch_pr_comments
    rw [if_pos h]
  · intro loads env argv h
    unfold main_fetch_pr_diff
    rw [if_pos h]
  · intro loads env argv e h
    unfold main_fetch_issue at h
    by_cases hl : argv.length ≠ 2
    · rw [if_pos hl] at h
      simp at h
    · rw [if_neg hl] at h
      cases hp : issuePipeline loads env (argv.getD 1 "") <;> rw [hp] at h <;> simp at h
  · intro loads env argv fuel e
    unfold main_fetch_pr_comments
    by_cases hgt : 2 < argv.length
    · rw [if_pos hgt]
      constructor
      · intro hh; simp at hh
      · rintro ⟨h2, _⟩; omega
    · rw [if_neg hgt]
      by_cases h2 : argv.length = 2
      · rw [if_pos h2]
        cases hp : _parse_pr_ref (argv.getD 1 "") with
        | error pe => simp [Except.map, h2]
        | ok v =>
          cases hq : prcPipeline loads env (some v) fuel <;>
            simp [Except.map, hq, h2]
      · rw [if_neg h2]
        cases hq : prcPipeline loads env none fuel <;> simp [hq, h2]
  · intro loads env argv e
    unfold main_fetch_pr_diff
    by_cases hgt : 2 < argv.length
    · rw [if_pos hgt]
      constructor
      · intro hh; simp at hh
      · rintro ⟨h2, _⟩; omega
    · rw [if_neg hgt]
      by_cases h2 : argv.length = 2
      · rw [if_pos h2]
        cases hp : _parse_pr_ref (argv.getD 1 "") with
        | error pe => simp [Except.map, h2]
        | ok v =>
          cases hq : diffPipeline loads env (some v) <;>
            simp [Except.map, hq, h2]
      · rw [if_neg h2]
        cases hq : diffPipeline loads env none <;> simp [hq, h2]
  · intro loads env argv e hlen hp
    unfold main_fetch_issue
    rw [if_neg (by simp [hlen]), hp]
  · intro loads env argv fuel prRef e hle hparse hp
    unfold main_fetch_pr_comments
    rw [if_neg hle, hparse]
    dsimp only
    rw [hp]
  · intro loads env argv prRef e hle hparse hp
    unfold main_fetch_pr_diff
    rw [if_neg hle, hparse]
    dsimp only
    rw [hp]

/-- C6 witness: concrete usage and pipeline-error runs of `fetch_issue`. -/
theorem c6_error_handling_amended_witness :
    main_fetch_issue trivLoads trivEnv ["prog"] = .exited 2 "" (issueUsage ++ "\n")
      ∧ main_fetch_issue trivLoads trivEnv ["prog", "xx"]
          = .exited 1 ""
              (("Invalid issue number: " ++ pyRepr "xx" ++
                ". Expected something like 123 or #123.") ++ "\n") :=
  ⟨c6_error_handling_amended.1 trivLoads trivEnv ["prog"] (by decide),
   c6_error_handling_amended.2.2.2.2.2.2.1 trivLoads trivEnv ["prog", "xx"]
     ("Invalid issue number: " ++ pyRepr "xx" ++ ". Expected something like 123 or #123.")
     rfl rfl⟩

/-- Did `main` handle the run itself (reach a `sys.exit` / normal exit),
as opposed to an exception escaping it? -/
def caughtAtTopLevel : ExitOutcome → Bool
  | .exited _ _ _ => true
  | _ => false

/-- C6 counterexample: an invalid PR reference passed to
`fetch_pr_comments` is *not* caught at the top level — `main` lets the
`ValueError` escape (the parse happens before the `try` block), instead
of printing the bare message to stderr and exiting via the handler as the
claim states. -/
theorem c6_error_handling_counterexample :
    main_fetch_pr_comments trivLoads trivEnv ["prog", "nope"] 1
        = .uncaught ("Invalid PR reference: " ++ pyRepr "nope" ++
            ". Expected a number (e.g. 3698), #3698, or a PR URL.")
      ∧ caughtAtTopLevel (main_fetch_pr_comments trivLoads trivEnv ["prog", "nope"] 1)
          = false :=
  ⟨rfl, rfl⟩

/-- C9 (confirmed): each embedded program is a pure function of its
argument vector and its oracles — two runs against extensionally equal
process environments (the mocked responses) produce identical outcomes,
bytes of standard output included. -/
theorem c9_determinism :
    (∀ (loads : Loads) (env1 env2 : Env) (argv : List String),
      (∀ c s, env1 c s = env2 c s) →
      main_fetch_issue loads env1 argv = main_fetch_issue loads env2 argv) ∧
    (∀ (loads : Loads) (env1 env2 : Env) (argv : List String) (fuel : Nat),
      (∀ c s, env1 c s = env2 c s) →
      main_fetch_pr_comments loads env1 argv fuel = main_fetch_pr_comments loads env2 argv fuel) ∧
    (∀ (loads : Loads) (env1 env2 : Env) (argv : List String),
      (∀ c s, env1 c s = env2 c s) →
      main_fetch_pr_diff loads env1 argv = main_fetch_pr_diff loads env2 argv) := by
  have henv : ∀ env1 env2 : Env, (∀ c s, env1 c s = env2 c s) → env1 = env2 :=
    fun env1 env2 h => funext fun c => funext fun s => h c s
  refine ⟨fun loads env1 env2 argv h => by rw [henv env1 env2 h],
          fun loads env1 env2 argv fuel h => by rw [henv env1 env2 h],
          fun loads env1 env2 argv h => by rw [henv env1 env2 h]⟩

/-- C9 witness: two runs of each program against the same concrete
environment coincide. -/
theorem c9_determinism_witness :
    main_fetch_issue trivLoads trivEnv ["prog", "1"]
        = main_fetch_issue trivLoads trivEnv ["prog", "1"]
      ∧ main_fetch_pr_comments trivLoads trivEnv ["prog"] 1
          = main_fetch_pr_comments trivLoads trivEnv ["prog"] 1
      ∧ main_fetch_pr_diff trivLoads trivEnv ["prog"]
          = main_fetch_pr_diff trivLoads trivEnv ["prog"] :=
  ⟨c9_determinism.1 trivLoads trivEnv trivEnv ["prog", "1"] (fun _ _ => rfl),
   c9_determinism.2.1 trivLoads trivEnv trivEnv ["prog"] 1 (fun _ _ => rfl),
   c9_determinism.2.2 trivLoads trivEnv trivEnv ["prog"] (fun _ _ => rfl)⟩
